import Mathlib

/-!
# Arduino-usbserial (CDC-ACM bridge with WebUSB)

A shallow embedding of `arduino-usbserial/Arduino-usbserial.c` and of the descriptor callback
of `arduino-usbserial/Descriptors.c`:

* the control-request dispatcher `EVENT_USB_Device_ControlRequest` with
  `resetDeviceAfterTimeout`;
* the loop of `main` that moves bytes between the USB endpoints and the UART through two ring
  buffers, and the receive interrupt `USART1_RX_vect`;
* `CALLBACK_USB_GetDescriptor`;
* `EVENT_CDC_Device_ControLineStateChanged`, which drives the target's reset line;
* the lengths declared in the MS OS 2.0 descriptor tables;
* the firmware as a whole: the statements of `main` interleaved, in any order, with receive
  interrupts, control requests and descriptor lookups.

Calls into the USB stack, the UART, the EEPROM and the watchdog are recorded, in program
order, in traces carried by the machine state; `uint8_t` and `uint16_t` values are natural
numbers, reduced modulo `2^8` or `2^16` where the source truncates.  A function that does not
return to its caller (the busy-wait in `resetDeviceAfterTimeout`) yields `Outcome.noreturn`,
and statements that follow it in the source are not run.
-/

namespace ArduinoUsbSerial

/-! ## Constants -/

/-- `WebUSBConfig.h`: `#define WEBUSB_VENDOR_CODE 0x42`. -/
def WEBUSB_VENDOR_CODE : Nat := 0x42

/-- `WebUSBConfig.h`: `#define WEBUSB_LANDING_PAGE_INDEX 0`. -/
def WEBUSB_LANDING_PAGE_INDEX : Nat := 0

/-- `WebUSBConfig.h`: `#define MS_OS_20_VENDOR_CODE 0x45`. -/
def MS_OS_20_VENDOR_CODE : Nat := 0x45

/-- `WebUSBConfig.h`: `#define WEBUSB_ENABLE_BYTE_ADDRESS 0x45`. -/
def WEBUSB_ENABLE_BYTE_ADDRESS : Nat := 0x45

/-- `WebUSBConfig.h`: `(10 + 8 + 8 + 20 + 8 + 20 + 10 + 42 + 80)`. -/
def MS_OS_20_DESCRIPTOR_SET_TOTAL_LENGTH : Nat := 10 + 8 + 8 + 20 + 8 + 20 + 10 + 42 + 80

/-- `WebUSBConfig.h`: `(10 + 20)`. -/
def MS_OS_20_DESCRIPTOR_SET_TOTAL_LENGTH_WEBUSB : Nat := 10 + 20

/-- LUFA `StdRequestType.h`: `REQDIR_HOSTTODEVICE (0 << 7)`. -/
def REQDIR_HOSTTODEVICE : Nat := 0 <<< 7

/-- LUFA `StdRequestType.h`: `REQDIR_DEVICETOHOST (1 << 7)`. -/
def REQDIR_DEVICETOHOST : Nat := 1 <<< 7

/-- LUFA `StdRequestType.h`: `REQTYPE_VENDOR (2 << 5)`. -/
def REQTYPE_VENDOR : Nat := 2 <<< 5

/-- LUFA `StdRequestType.h`: `REQREC_DEVICE (0 << 0)`. -/
def REQREC_DEVICE : Nat := 0 <<< 0

/-- LUFA `StdRequestType.h`: `CONTROL_REQTYPE_TYPE 0x60`, the mask of the type bits of
`bmRequestType`. -/
def CONTROL_REQTYPE_TYPE : Nat := 0x60

/-- The selector constants that `EVENT_USB_Device_ControlRequest` uses but that are declared in
headers outside the sources at hand (`WebUSBDevice.h`, `MS_OS_20_Device.h`; the definition of
`MS_OS_20_ALTERNATE_ENUMERATION_CODE` in `WebUSBConfig.h` is commented out), together with
`WebUSB_LandingPage.Header.Size`, which the absent `WEBUSB_URL_DESCRIPTOR` initialiser computes.
They are parameters of the embedding. -/
structure Selectors where
  WebUSB_RTYPE_GetURL : Nat
  WebUSB_RTYPE_Enable : Nat
  MS_OS_20_DESCRIPTOR_INDEX : Nat
  MS_OS_20_SET_ALT_ENUMERATION : Nat
  MS_OS_20_ALTERNATE_ENUMERATION_CODE : Nat
  WebUSB_LandingPage_Header_Size : Nat

/-! ## Machine state -/

/-- The objects in program memory that the dispatcher hands to
`Endpoint_Write_Control_PStream_LE`. -/
inductive ProgmemObject where
  | WebUSB_LandingPage
  | MS_OS_20_Descriptor
  | MS_OS_20_Descriptor_WebUSB
  deriving DecidableEq, Repr

/-- One call into a collaborator (USB stack, EEPROM, interrupt flag, delay, watchdog), or the
terminal busy-wait `while(1);`. -/
inductive Effect where
  | Endpoint_ClearSETUP
  | Endpoint_Write_Control_PStream_LE (buffer : ProgmemObject) (length : Nat)
  | Endpoint_ClearStatusStage
  | Endpoint_StallTransaction
  | eeprom_write_byte (address value : Nat)
  | USB_Disable
  | cli
  | Delay_MS (ms : Nat)
  | wdt_enable_WDTO_250MS
  | busy_wait
  | CDC_Device_ProcessControlRequest
  deriving DecidableEq, Repr

/-- The part of the machine the dispatcher reads and writes: the global `WebUSB_Enabled`
(`uint8_t`), the EEPROM (address to byte), and the calls made so far. -/
structure Device where
  WebUSB_Enabled : Nat
  eeprom : Nat → Nat
  trace : List Effect

/-- The fields of `USB_ControlRequest` (`uint8_t`, `uint8_t`, `uint16_t`, `uint16_t`,
`uint16_t`). -/
structure USB_Request_Header where
  bmRequestType : Nat
  bRequest : Nat
  wValue : Nat
  wIndex : Nat
  wLength : Nat
  deriving DecidableEq, Repr

/-- How a call ends: control comes back to the caller, or it never does. -/
inductive Outcome where
  | returned (s : Device)
  | noreturn (s : Device)

/-- The machine state an outcome ends in. -/
def Outcome.state : Outcome → Device
  | .returned s => s
  | .noreturn s => s

/-- Whether control comes back to the caller. -/
def Outcome.returns : Outcome → Bool
  | .returned _ => true
  | .noreturn _ => false

/-- Sequencing of statements: what follows runs only if control comes back. -/
def Outcome.andThen : Outcome → (Device → Outcome) → Outcome
  | .returned s, f => f s
  | .noreturn s, _ => .noreturn s

/-- Record one call. -/
def Device.emit (s : Device) (e : Effect) : Device :=
  { s with trace := s.trace ++ [e] }

/-! ## Collaborator calls -/

def Endpoint_ClearSETUP (s : Device) : Device := s.emit .Endpoint_ClearSETUP

def Endpoint_Write_Control_PStream_LE (buffer : ProgmemObject) (length : Nat) (s : Device) :
    Device :=
  s.emit (.Endpoint_Write_Control_PStream_LE buffer length)

def Endpoint_ClearStatusStage (s : Device) : Device := s.emit .Endpoint_ClearStatusStage

def Endpoint_StallTransaction (s : Device) : Device := s.emit .Endpoint_StallTransaction

/-- `eeprom_write_byte(address, value)`: the byte at `address` becomes `value`. -/
def eeprom_write_byte (address value : Nat) (s : Device) : Device :=
  { s with
    eeprom := fun a => if a = address then value else s.eeprom a
    trace := s.trace ++ [.eeprom_write_byte address value] }

/-- The external CDC class driver's handler; only the call is recorded. -/
def CDC_Device_ProcessControlRequest (s : Device) : Device :=
  s.emit .CDC_Device_ProcessControlRequest

/-! ## The program -/

/-- `void resetDeviceAfterTimeout(int timeout_ms)`: `USB_Disable(); cli();
Delay_MS(timeout_ms); wdt_enable(WDTO_250MS); while(1);`. -/
def resetDeviceAfterTimeout (timeout_ms : Nat) (s : Device) : Outcome :=
  let s := s.emit .USB_Disable
  let s := s.emit .cli
  let s := s.emit (.Delay_MS timeout_ms)
  let s := s.emit .wdt_enable_WDTO_250MS
  .noreturn (s.emit .busy_wait)

/-- The `switch (USB_ControlRequest.wValue)` under `case MS_OS_20_SET_ALT_ENUMERATION:`.  The
matching case ends in `break`; the `default` has none, and is the last label of this switch. -/
def setAltEnumerationSwitch (c : Selectors) (req : USB_Request_Header) (s : Device) : Device :=
  if req.wValue = c.MS_OS_20_ALTERNATE_ENUMERATION_CODE <<< 8 then
    Endpoint_ClearSETUP s
  else
    Endpoint_StallTransaction s

/-- The `case (REQDIR_DEVICETOHOST | REQTYPE_VENDOR | REQREC_DEVICE):` arm. -/
def deviceToHostVendor (c : Selectors) (req : USB_Request_Header) (s : Device) : Outcome :=
  if req.bRequest = WEBUSB_VENDOR_CODE then
    if req.wIndex = c.WebUSB_RTYPE_GetURL then
      if req.wValue = WEBUSB_LANDING_PAGE_INDEX then
        let s := Endpoint_ClearSETUP s
        let s := Endpoint_Write_Control_PStream_LE .WebUSB_LandingPage
                   c.WebUSB_LandingPage_Header_Size s
        .returned (Endpoint_ClearStatusStage s)
      else
        .returned (Endpoint_StallTransaction s)
    else
      .returned (Endpoint_StallTransaction s)
  else if req.bRequest = MS_OS_20_VENDOR_CODE then
    if req.wIndex = c.MS_OS_20_DESCRIPTOR_INDEX then
      let s := Endpoint_ClearSETUP s
      let s :=
        if s.WebUSB_Enabled ≠ 0 then
          Endpoint_Write_Control_PStream_LE .MS_OS_20_Descriptor_WebUSB
            MS_OS_20_DESCRIPTOR_SET_TOTAL_LENGTH_WEBUSB s
        else
          Endpoint_Write_Control_PStream_LE .MS_OS_20_Descriptor
            MS_OS_20_DESCRIPTOR_SET_TOTAL_LENGTH s
      .returned (Endpoint_ClearStatusStage s)
    else if req.wIndex = c.MS_OS_20_SET_ALT_ENUMERATION then
      -- the inner switch is followed directly by the label `default:` of the enclosing switch:
      -- there is no `break` between them, so control runs on into the stall
      let s := setAltEnumerationSwitch c req s
      .returned (Endpoint_StallTransaction s)
    else
      .returned (Endpoint_StallTransaction s)
  else
    .returned (Endpoint_StallTransaction s)

/-- The controlling expression `WebUSB_Enabled != USB_ControlRequest.wValue & 1`.  In C `!=`
binds tighter than `&`, so it is `(WebUSB_Enabled != wValue) & 1`: the comparison gives 0 or
1, which is then masked with 1. -/
def enableCondition (s : Device) (req : USB_Request_Header) : Bool :=
  ((if s.WebUSB_Enabled ≠ req.wValue then 1 else 0) &&& 1) ≠ 0

/-- The `case (REQDIR_HOSTTODEVICE | REQTYPE_VENDOR | REQREC_DEVICE):` arm. -/
def hostToDeviceVendor (c : Selectors) (req : USB_Request_Header) (s : Device) : Outcome :=
  if req.bRequest = WEBUSB_VENDOR_CODE then
    if req.wIndex = c.WebUSB_RTYPE_Enable then
      let s := Endpoint_ClearSETUP s
      let o : Outcome :=
        if enableCondition s req then
          -- `WebUSB_Enabled = USB_ControlRequest.wValue & 1;` stored in a `uint8_t`
          let s := { s with WebUSB_Enabled := (req.wValue &&& 1) % 256 }
          let s := eeprom_write_byte WEBUSB_ENABLE_BYTE_ADDRESS s.WebUSB_Enabled s
          let s := Endpoint_ClearStatusStage s
          resetDeviceAfterTimeout 2000 s
        else
          .returned (Endpoint_ClearStatusStage s)
      -- no `break` before `default:`: if control comes back from the `if`, it runs on
      o.andThen fun s => .returned (Endpoint_StallTransaction s)
    else
      .returned (Endpoint_StallTransaction s)
  else
    .returned (Endpoint_StallTransaction s)

/-- `void EVENT_USB_Device_ControlRequest(void)`. -/
def EVENT_USB_Device_ControlRequest (c : Selectors) (req : USB_Request_Header) (s : Device) :
    Outcome :=
  if req.bmRequestType = (REQDIR_DEVICETOHOST ||| REQTYPE_VENDOR ||| REQREC_DEVICE) then
    deviceToHostVendor c req s
  else if req.bmRequestType = (REQDIR_HOSTTODEVICE ||| REQTYPE_VENDOR ||| REQREC_DEVICE) then
    hostToDeviceVendor c req s
  else
    .returned (CDC_Device_ProcessControlRequest s)

/-- Selector values used for concrete runs: Get-URL 2, Enable 3, descriptor index 7, set
alternate enumeration 8, alternate enumeration code 0, landing-page descriptor of 30 bytes. -/
def sampleSelectors : Selectors :=
  { WebUSB_RTYPE_GetURL := 2
    WebUSB_RTYPE_Enable := 3
    MS_OS_20_DESCRIPTOR_INDEX := 7
    MS_OS_20_SET_ALT_ENUMERATION := 8
    MS_OS_20_ALTERNATE_ENUMERATION_CODE := 0
    WebUSB_LandingPage_Header_Size := 30 }

/-- A machine with mode bit `enabled`, every EEPROM byte equal to `stored`, and no calls yet. -/
def freshDevice (enabled stored : Nat) : Device :=
  { WebUSB_Enabled := enabled, eeprom := fun _ => stored, trace := [] }

/-! ## Ring buffers -/

/-- `Descriptors.h`: `#define CDC_TXRX_EPSIZE 64`. -/
def CDC_TXRX_EPSIZE : Nat := 64

/-- `Descriptors.h`: `#define CDC_TX_EPADDR (ENDPOINT_DIR_IN | 3)`, with LUFA's
`ENDPOINT_DIR_IN 0x80`. -/
def CDC_TX_EPADDR : Nat := 0x80 ||| 3

/-- LUFA `Endpoint_Stream_RW_ErrorCodes_t` / `Endpoint_WaitUntilReady_ErrorCodes_t`:
`ENDPOINT_READYWAIT_NoError = 0`. -/
def ENDPOINT_READYWAIT_NoError : Nat := 0

/-- LUFA `USB_Device_States_t`: `DEVICE_STATE_Configured = 4`. -/
def DEVICE_STATE_Configured : Nat := 4

/-- Modelled from the spec: the ring buffer type of LUFA's `RingBuffer.h`, which is not among
the sources at hand.  Section 3: a fixed backing storage of capacity C, a head index, a tail
index and a count.  `Data` is the backing store (index to byte), `In` the tail index, `Out` the
head index, `Size` the capacity and `Count` the number of stored bytes, a 16-bit counter (the
source reads it into a `uint16_t`). -/
structure RingBuffer_t where
  Data : Nat → Nat
  In : Nat
  Out : Nat
  Size : Nat
  Count : Nat

/-- Modelled from the spec: `init(capacity)` gives the empty buffer (section 4.1).  The source
passes a zero-initialised static array and its `sizeof`. -/
def RingBuffer_InitBuffer (Size : Nat) : RingBuffer_t :=
  { Data := fun _ => 0, In := 0, Out := 0, Size := Size, Count := 0 }

/-- Modelled from the spec: `count()` (section 4.1). -/
def RingBuffer_GetCount (Buffer : RingBuffer_t) : Nat := Buffer.Count

/-- Modelled from the spec: `is_full()`; section 3: count == C means full. -/
def RingBuffer_IsFull (Buffer : RingBuffer_t) : Bool :=
  RingBuffer_GetCount Buffer == Buffer.Size

/-- Modelled from the spec: `is_empty()`; section 3: count == 0 means empty. -/
def RingBuffer_IsEmpty (Buffer : RingBuffer_t) : Bool :=
  RingBuffer_GetCount Buffer == 0

/-- Modelled from the spec: the insertion of section 4.1, which appends at the tail, advances
the tail modulo the capacity and increments the count.  The source tests `RingBuffer_IsFull`
itself before every call, so the operation here is the unconditional one: it has no test of
its own, and the 16-bit count wraps. -/
def RingBuffer_Insert (Buffer : RingBuffer_t) (Data : Nat) : RingBuffer_t :=
  { Buffer with
    Data := fun i => if i = Buffer.In then Data else Buffer.Data i
    In := (Buffer.In + 1) % Buffer.Size
    Count := (Buffer.Count + 1) % 65536 }

/-- Modelled from the spec: `peek()` of section 4.1, the byte at the head, with nothing
changed. -/
def RingBuffer_Peek (Buffer : RingBuffer_t) : Nat := Buffer.Data Buffer.Out

/-- Modelled from the spec: the removal of section 4.1, which returns the byte at the head,
advances the head and decrements the count.  The source tests the count itself before every
call, so the operation here is the unconditional one: it has no test of its own, and the
16-bit count wraps. -/
def RingBuffer_Remove (Buffer : RingBuffer_t) : Nat × RingBuffer_t :=
  (Buffer.Data Buffer.Out,
    { Buffer with
      Out := (Buffer.Out + 1) % Buffer.Size
      Count := (Buffer.Count + 65535) % 65536 })

/-- The stored bytes, oldest first: `Count` bytes read from the head index on, wrapping at the
capacity. -/
def RingBuffer_t.contents (Buffer : RingBuffer_t) : List Nat :=
  (List.range Buffer.Count).map fun i => Buffer.Data ((Buffer.Out + i) % Buffer.Size)

/-- The representation invariant of a ring buffer: a positive 16-bit capacity, the head index
inside the store, at most `Size` stored bytes, and the tail index `Count` places after the
head, modulo the capacity. -/
structure RingBuffer_t.WF (Buffer : RingBuffer_t) : Prop where
  size_pos : 0 < Buffer.Size
  size_lt : Buffer.Size < 65536
  out_lt : Buffer.Out < Buffer.Size
  count_le : Buffer.Count ≤ Buffer.Size
  in_eq : Buffer.In = (Buffer.Out + Buffer.Count) % Buffer.Size

/-- Insert the bytes of a list one after the other. -/
def insertAll (Buffer : RingBuffer_t) (bytes : List Nat) : RingBuffer_t :=
  bytes.foldl RingBuffer_Insert Buffer

/-- Remove `n` bytes one after the other; the bytes in the order they came out, and the
buffer left. -/
def removeN : Nat → RingBuffer_t → List Nat × RingBuffer_t
  | 0, Buffer => ([], Buffer)
  | n + 1, Buffer =>
    let r := RingBuffer_Remove Buffer
    let rest := removeN n r.2
    (r.1 :: rest.1, rest.2)

/-! ## The serial bridge: machine state -/

/-- The two ring buffers of `Arduino-usbserial.c`. -/
inductive BufferName where
  | USBtoUSART_Buffer
  | USARTtoUSB_Buffer
  deriving DecidableEq, Repr

/-- One call made by `main`, by the receive interrupt or by `CALLBACK_USB_GetDescriptor` that
exchanges data with a collaborator or moves a byte into or out of a ring buffer, with the
value it was given or gave back.  The read-only queries on the ring buffers are not
recorded. -/
inductive Call where
  | CDC_Device_ReceiveByte (result : Int)
  | RingBuffer_Insert (buffer : BufferName) (data : Nat)
  | RingBuffer_Remove (buffer : BufferName) (result : Nat)
  | Endpoint_SelectEndpoint (address : Nat)
  | Endpoint_IsINReady (result : Bool)
  | LEDs_TurnOnLEDs_LEDMASK_TX
  | LEDs_TurnOnLEDs_LEDMASK_RX
  | CDC_Device_SendByte (data : Nat) (result : Nat)
  | Serial_IsSendReady (result : Bool)
  | Serial_SendByte (data : Nat)
  | CDC_Device_USBTask
  | USB_USBTask
  | LEDs_ToggleLEDs_LEDS_LED1
  | LEDs_ToggleLEDs_LEDS_ALL_LEDS
  deriving DecidableEq, Repr

/-- The globals of the firmware: the mode state of the dispatcher (`dev`), the two ring
buffers, the two LED pulse counters, and the calls made so far. -/
structure Machine where
  dev : Device
  USBtoUSART_Buffer : RingBuffer_t
  USARTtoUSB_Buffer : RingBuffer_t
  TxLEDPulseTimer : Nat
  RxLEDPulseTimer : Nat
  calls : List Call

/-- Record one call. -/
def Machine.call (m : Machine) (c : Call) : Machine :=
  { m with calls := m.calls ++ [c] }

/-- `eeprom_read_byte(address)`: the byte stored at `address`. -/
def eeprom_read_byte (address : Nat) (eeprom : Nat → Nat) : Nat := eeprom address % 256

/-- `main`, lines 117 to 124, on a device whose EEPROM holds `eeprom`:
`WebUSB_Enabled = eeprom_read_byte((uint8_t *) WEBUSB_ENABLE_BYTE_ADDRESS) & 1;` and the two
`RingBuffer_InitBuffer` calls on the 128-byte arrays.  The register programming of
`SetupHardware` is outside the embedding. -/
def main_setup (eeprom : Nat → Nat) : Machine :=
  { dev :=
      { WebUSB_Enabled := eeprom_read_byte WEBUSB_ENABLE_BYTE_ADDRESS eeprom &&& 1
        eeprom := eeprom
        trace := [] }
    USBtoUSART_Buffer := RingBuffer_InitBuffer 128
    USARTtoUSB_Buffer := RingBuffer_InitBuffer 128
    TxLEDPulseTimer := 0
    RxLEDPulseTimer := 0
    calls := [] }

/-! ## The serial bridge: the loop of `main` -/

/-- `main`, lines 129 to 136: `if (!(RingBuffer_IsFull(&USBtoUSART_Buffer)))`, read one byte
with `CDC_Device_ReceiveByte` (an `int16_t`, here `ReceivedByte`), and
`if (!(ReceivedByte < 0))` insert it; the insertion takes a `uint8_t`. -/
def main_readFromHost (ReceivedByte : Int) (m : Machine) : Machine :=
  if !(RingBuffer_IsFull m.USBtoUSART_Buffer) then
    let m := m.call (.CDC_Device_ReceiveByte ReceivedByte)
    if !(decide (ReceivedByte < 0)) then
      let Data := (ReceivedByte % 256).toNat
      let m := m.call (.RingBuffer_Insert .USBtoUSART_Buffer Data)
      { m with USBtoUSART_Buffer := RingBuffer_Insert m.USBtoUSART_Buffer Data }
    else
      m
  else
    m

/-- `main`, lines 138 to 154: read `BufferCount`, and if it is non-zero select the IN endpoint
and ask `Endpoint_IsINReady`; if that holds switch the TX LED on, restart its pulse counter and
compute `uint8_t BytesToSend = MIN(BufferCount, (CDC_TXRX_EPSIZE - 1))`.  The second component
is `BytesToSend` when the send loop is entered, and `none` when it is not. -/
def main_sendBegin (TX_RX_LED_PULSE_MS : Nat) (INReady : Bool) (m : Machine) :
    Machine × Option Nat :=
  let BufferCount := RingBuffer_GetCount m.USARTtoUSB_Buffer
  if BufferCount ≠ 0 then
    let m := m.call (.Endpoint_SelectEndpoint CDC_TX_EPADDR)
    let m := m.call (.Endpoint_IsINReady INReady)
    if INReady then
      let m := m.call .LEDs_TurnOnLEDs_LEDMASK_TX
      let m := { m with TxLEDPulseTimer := TX_RX_LED_PULSE_MS }
      let BytesToSend := min BufferCount (CDC_TXRX_EPSIZE - 1) % 256
      (m, some BytesToSend)
    else
      (m, none)
  else
    (m, none)

/-- `main`, lines 160 to 164: `CDC_Device_SendByte(..., RingBuffer_Peek(&USARTtoUSB_Buffer))`
returning `result`; the second component tells whether the loop goes on (`true`) or is left by
`break` (`false`). -/
def main_sendAttempt (result : Nat) (m : Machine) : Machine × Bool :=
  let m := m.call (.CDC_Device_SendByte (RingBuffer_Peek m.USARTtoUSB_Buffer) result)
  if result ≠ ENDPOINT_READYWAIT_NoError then (m, false) else (m, true)

/-- `main`, line 167: `RingBuffer_Remove(&USARTtoUSB_Buffer);`. -/
def main_dequeueSent (m : Machine) : Machine :=
  let r := RingBuffer_Remove m.USARTtoUSB_Buffer
  let m := m.call (.RingBuffer_Remove .USARTtoUSB_Buffer r.1)
  { m with USARTtoUSB_Buffer := r.2 }

/-- `main`, lines 157 to 168: `while (BytesToSend--)` with its body, run without interruption.
`results k` is what the call number `k` of `CDC_Device_SendByte` in this loop returns. -/
def main_sendLoop (results : Nat → Nat) : Nat → Nat → Machine → Machine
  | 0, _, m => m
  | BytesToSend + 1, k, m =>
    match main_sendAttempt (results k) m with
    | (m, false) => m
    | (m, true) => main_sendLoop results BytesToSend (k + 1) (main_dequeueSent m)

/-- `main`, lines 138 to 170: the USB IN step, run without interruption. -/
def main_sendToHost (TX_RX_LED_PULSE_MS : Nat) (INReady : Bool) (results : Nat → Nat)
    (m : Machine) : Machine :=
  match main_sendBegin TX_RX_LED_PULSE_MS INReady m with
  | (m, some BytesToSend) => main_sendLoop results BytesToSend 0 m
  | (m, none) => m

/-- `main`, lines 173 to 177: `if (Serial_IsSendReady() && !(RingBuffer_IsEmpty(
&USBtoUSART_Buffer)))`, switch the RX LED on, restart its pulse counter and
`Serial_SendByte(RingBuffer_Remove(&USBtoUSART_Buffer))`. -/
def main_loadUART (TX_RX_LED_PULSE_MS : Nat) (SendReady : Bool) (m : Machine) : Machine :=
  let m := m.call (.Serial_IsSendReady SendReady)
  if SendReady && !(RingBuffer_IsEmpty m.USBtoUSART_Buffer) then
    let m := m.call .LEDs_TurnOnLEDs_LEDMASK_RX
    let m := { m with RxLEDPulseTimer := TX_RX_LED_PULSE_MS }
    let r := RingBuffer_Remove m.USBtoUSART_Buffer
    let m := m.call (.RingBuffer_Remove .USBtoUSART_Buffer r.1)
    let m := { m with USBtoUSART_Buffer := r.2 }
    m.call (.Serial_SendByte r.1)
  else
    m

/-- `main`, lines 179 and 180: `CDC_Device_USBTask(...); USB_USBTask();`. -/
def main_usbTasks (m : Machine) : Machine :=
  (m.call .CDC_Device_USBTask).call .USB_USBTask

/-- What the collaborators answer during one pass through the loop of `main`. -/
structure PollInput where
  ReceivedByte : Int
  INReady : Bool
  SendResults : Nat → Nat
  SendReady : Bool

/-- One pass through the `for (;;)` loop of `main`, lines 128 to 180, run without
interruption. -/
def main_loop (TX_RX_LED_PULSE_MS : Nat) (i : PollInput) (m : Machine) : Machine :=
  let m := main_readFromHost i.ReceivedByte m
  let m := main_sendToHost TX_RX_LED_PULSE_MS i.INReady i.SendResults m
  let m := main_loadUART TX_RX_LED_PULSE_MS i.SendReady m
  main_usbTasks m

/-- `ISR(USART1_RX_vect, ISR_BLOCK)`: `ReceivedByte = UDR1;` and, if `USB_DeviceState ==
DEVICE_STATE_Configured` and the buffer is not full, insert it into `USARTtoUSB_Buffer`. -/
def USART1_RX_vect (UDR1 : Nat) (USB_DeviceState : Nat) (m : Machine) : Machine :=
  let ReceivedByte := UDR1 % 256
  if USB_DeviceState = DEVICE_STATE_Configured ∧
      !(RingBuffer_IsFull m.USARTtoUSB_Buffer) then
    let m := m.call (.RingBuffer_Insert .USARTtoUSB_Buffer ReceivedByte)
    { m with USARTtoUSB_Buffer := RingBuffer_Insert m.USARTtoUSB_Buffer ReceivedByte }
  else
    m

/-- The bytes handed to the USB IN endpoint with success, in order. -/
def usbInSent (calls : List Call) : List Nat :=
  calls.filterMap fun c =>
    match c with
    | .CDC_Device_SendByte data result =>
      if result = ENDPOINT_READYWAIT_NoError then some data else none
    | _ => none

/-- The results of the `CDC_Device_SendByte` calls, in order. -/
def sendByteCalls (calls : List Call) : List Nat :=
  calls.filterMap fun c =>
    match c with
    | .CDC_Device_SendByte _ result => some result
    | _ => none

/-- The bytes handed to the UART, in order. -/
def uartSent (calls : List Call) : List Nat :=
  calls.filterMap fun c =>
    match c with
    | .Serial_SendByte data => some data
    | _ => none

/-- The bytes inserted into the named ring buffer, in order. -/
def insertedInto (buffer : BufferName) (calls : List Call) : List Nat :=
  calls.filterMap fun c =>
    match c with
    | .RingBuffer_Insert b data => if b = buffer then some data else none
    | _ => none

/-! ## Descriptor lookup -/

/-- LUFA `StdDescriptors.h`: `DTYPE_Device = 0x01`. -/
def DTYPE_Device : Nat := 0x01

/-- LUFA `StdDescriptors.h`: `DTYPE_Configuration = 0x02`. -/
def DTYPE_Configuration : Nat := 0x02

/-- LUFA `StdDescriptors.h`: `DTYPE_String = 0x03`. -/
def DTYPE_String : Nat := 0x03

/-- The descriptor type of the Binary device Object Store of USB 2.1, `0x0F`; its declaration
is in a header outside the sources at hand. -/
def DTYPE_BOS : Nat := 0x0F

/-- LUFA `StdDescriptors.h`: `NO_DESCRIPTOR 0`. -/
def NO_DESCRIPTOR : Nat := 0

/-- `Descriptors.h`, `enum StringDescriptors_t`: `STRING_ID_Language = 0`. -/
def STRING_ID_Language : Nat := 0

/-- `Descriptors.h`, `enum StringDescriptors_t`: `STRING_ID_Manufacturer = 1`. -/
def STRING_ID_Manufacturer : Nat := 1

/-- `Descriptors.h`, `enum StringDescriptors_t`: `STRING_ID_Product = 2`. -/
def STRING_ID_Product : Nat := 2

/-- The descriptor tables of `Descriptors.c` whose address the callback can give back. -/
inductive DescriptorObject where
  | DeviceDescriptor
  | DeviceDescriptor_WebUSB
  | BOSDescriptor
  | BOSDescriptor_WebUSB
  | ConfigurationDescriptor
  | ConfigurationDescriptor_WebUSB
  | LanguageString
  | ManufacturerString
  | ManufacturerString_WebUSB
  | ProductString
  | ProductString_WebUSB
  deriving DecidableEq, Repr

/-- The sizes that `CALLBACK_USB_GetDescriptor` takes from `sizeof` of LUFA's descriptor types
and reads from the tables with `pgm_read_byte`; the types and the initialiser macros are
declared outside the sources at hand, so the values are parameters of the embedding. -/
structure DescriptorSizes where
  sizeof_USB_Descriptor_Device_t : Nat
  BOSDescriptor_TotalLength : Nat
  BOSDescriptor_WebUSB_TotalLength : Nat
  sizeof_USB_Descriptor_Configuration_t : Nat
  sizeof_USB_Descriptor_Configuration_WebUSB_t : Nat
  LanguageString_Header_Size : Nat
  ManufacturerString_Header_Size : Nat
  ManufacturerString_WebUSB_Header_Size : Nat
  ProductString_Header_Size : Nat
  ProductString_WebUSB_Header_Size : Nat

/-- `pgm_read_byte(address)`: one byte, the low byte of a wider field. -/
def pgm_read_byte (value : Nat) : Nat := value % 256

/-- What `CALLBACK_USB_GetDescriptor` gives back: the value stored through
`DescriptorAddress` (`none` is `NULL`) and the returned size. -/
structure DescriptorResult where
  Address : Option DescriptorObject
  Size : Nat
  deriving DecidableEq, Repr

/-- `uint16_t CALLBACK_USB_GetDescriptor(const uint16_t wValue, const uint16_t wIndex,
const void** const DescriptorAddress)` of `Descriptors.c`. -/
def CALLBACK_USB_GetDescriptor (z : DescriptorSizes) (wValue _wIndex : Nat) (m : Machine) :
    DescriptorResult × Machine :=
  let DescriptorType := (wValue >>> 8) % 256
  let DescriptorNumber := (wValue &&& 0xFF) % 256
  if DescriptorType = DTYPE_Device then
    if m.dev.WebUSB_Enabled ≠ 0 then
      ({ Address := some .DeviceDescriptor_WebUSB, Size := z.sizeof_USB_Descriptor_Device_t },
        m.call .LEDs_ToggleLEDs_LEDS_LED1)
    else
      ({ Address := some .DeviceDescriptor, Size := z.sizeof_USB_Descriptor_Device_t },
        m.call .LEDs_ToggleLEDs_LEDS_ALL_LEDS)
  else if DescriptorType = DTYPE_BOS then
    if m.dev.WebUSB_Enabled ≠ 0 then
      ({ Address := some .BOSDescriptor_WebUSB,
         Size := pgm_read_byte z.BOSDescriptor_WebUSB_TotalLength },
        m.call .LEDs_ToggleLEDs_LEDS_LED1)
    else
      ({ Address := some .BOSDescriptor, Size := pgm_read_byte z.BOSDescriptor_TotalLength }, m)
  else if DescriptorType = DTYPE_Configuration then
    if m.dev.WebUSB_Enabled ≠ 0 then
      ({ Address := some .ConfigurationDescriptor_WebUSB,
         Size := z.sizeof_USB_Descriptor_Configuration_WebUSB_t },
        m.call .LEDs_ToggleLEDs_LEDS_LED1)
    else
      ({ Address := some .ConfigurationDescriptor,
         Size := z.sizeof_USB_Descriptor_Configuration_t }, m)
  else if DescriptorType = DTYPE_String then
    if DescriptorNumber = STRING_ID_Language then
      ({ Address := some .LanguageString, Size := pgm_read_byte z.LanguageString_Header_Size },
        m)
    else if DescriptorNumber = STRING_ID_Manufacturer then
      if m.dev.WebUSB_Enabled ≠ 0 then
        ({ Address := some .ManufacturerString_WebUSB,
           Size := pgm_read_byte z.ManufacturerString_WebUSB_Header_Size }, m)
      else
        ({ Address := some .ManufacturerString,
           Size := pgm_read_byte z.ManufacturerString_Header_Size }, m)
    else if DescriptorNumber = STRING_ID_Product then
      if m.dev.WebUSB_Enabled ≠ 0 then
        ({ Address := some .ProductString_WebUSB,
           Size := pgm_read_byte z.ProductString_WebUSB_Header_Size }, m)
      else
        ({ Address := some .ProductString,
           Size := pgm_read_byte z.ProductString_Header_Size }, m)
    else
      ({ Address := none, Size := NO_DESCRIPTOR }, m)
  else
    ({ Address := none, Size := NO_DESCRIPTOR }, m)

/-! ## The running firmware: `main` interleaved with interrupts and USB events -/

/-- The parameters of the embedding, bundled: the selector constants, `TX_RX_LED_PULSE_MS` (from
`Arduino-usbserial.h`, outside the sources at hand), and the descriptor sizes. -/
structure Firmware where
  sel : Selectors
  TX_RX_LED_PULSE_MS : Nat
  sizes : DescriptorSizes

/-- Where `main` stands in its loop, at the grain at which an interrupt can come in between:
before line 129, before line 138, at the test `while (BytesToSend--)` of line 157 with the
current `BytesToSend`, before the `RingBuffer_Remove` of line 167 with the `BytesToSend` left,
before line 173, and before line 179. -/
inductive PC where
  | readFromHost
  | sendBegin
  | sendTest (BytesToSend : Nat)
  | dequeue (BytesToSend : Nat)
  | loadUART
  | usbTasks
  deriving DecidableEq, Repr

/-- The firmware at one instant: the globals, the position of `main`, and whether the
processor is still running the program (`false` once `resetDeviceAfterTimeout` has entered its
busy-wait with interrupts off). -/
structure System where
  m : Machine
  pc : PC
  running : Bool

/-- What the collaborators answer to the one statement `main` executes next. -/
structure MainInput where
  ReceivedByte : Int
  INReady : Bool
  SendResult : Nat
  SendReady : Bool
  deriving DecidableEq, Repr

/-- What can happen next: `main` executes the statement it stands at, the UART receive
interrupt fires with the byte in `UDR1` while the USB stack is in `USB_DeviceState`, the USB
stack delivers a control request to `EVENT_USB_Device_ControlRequest`, or it asks for a
descriptor through `CALLBACK_USB_GetDescriptor`. -/
inductive Event where
  | main (i : MainInput)
  | USART1_RX (UDR1 : Nat) (USB_DeviceState : Nat)
  | ControlRequest (req : USB_Request_Header)
  | GetDescriptor (wValue wIndex : Nat)

/-- The statement of `main` at the current position, and the position after it. -/
def mainStep (f : Firmware) (i : MainInput) (s : System) : System :=
  match s.pc with
  | .readFromHost => { s with m := main_readFromHost i.ReceivedByte s.m, pc := .sendBegin }
  | .sendBegin =>
    match main_sendBegin f.TX_RX_LED_PULSE_MS i.INReady s.m with
    | (m, some BytesToSend) => { s with m := m, pc := .sendTest BytesToSend }
    | (m, none) => { s with m := m, pc := .loadUART }
  | .sendTest 0 => { s with pc := .loadUART }
  | .sendTest (BytesToSend + 1) =>
    match main_sendAttempt i.SendResult s.m with
    | (m, false) => { s with m := m, pc := .loadUART }
    | (m, true) => { s with m := m, pc := .dequeue BytesToSend }
  | .dequeue BytesToSend => { s with m := main_dequeueSent s.m, pc := .sendTest BytesToSend }
  | .loadUART =>
    { s with m := main_loadUART f.TX_RX_LED_PULSE_MS i.SendReady s.m, pc := .usbTasks }
  | .usbTasks => { s with m := main_usbTasks s.m, pc := .readFromHost }

/-- One event.  Nothing happens any more once the processor sits in the busy-wait. -/
def step (f : Firmware) (s : System) (e : Event) : System :=
  if s.running then
    match e with
    | .main i => mainStep f i s
    | .USART1_RX UDR1 USB_DeviceState => { s with m := USART1_RX_vect UDR1 USB_DeviceState s.m }
    | .ControlRequest req =>
      match EVENT_USB_Device_ControlRequest f.sel req s.m.dev with
      | .returned dev => { s with m := { s.m with dev := dev } }
      | .noreturn dev => { s with m := { s.m with dev := dev }, running := false }
    | .GetDescriptor wValue wIndex =>
      { s with m := (CALLBACK_USB_GetDescriptor f.sizes wValue wIndex s.m).2 }
  else
    s

/-- The firmware after a sequence of events. -/
def run (f : Firmware) (s : System) (events : List Event) : System :=
  events.foldl (step f) s

/-- The firmware as `main` enters its loop, on a device whose EEPROM holds `eeprom`. -/
def boot (eeprom : Nat → Nat) : System :=
  { m := main_setup eeprom, pc := .readFromHost, running := true }

/-- Parameter values used for concrete runs: `sampleSelectors`, a pulse of 3 ms, and the sizes
of the descriptor types as LUFA lays them out. -/
def sampleFirmware : Firmware :=
  { sel := sampleSelectors
    TX_RX_LED_PULSE_MS := 3
    sizes :=
      { sizeof_USB_Descriptor_Device_t := 18
        BOSDescriptor_TotalLength := 57
        BOSDescriptor_WebUSB_TotalLength := 57
        sizeof_USB_Descriptor_Configuration_t := 79
        sizeof_USB_Descriptor_Configuration_WebUSB_t := 39
        LanguageString_Header_Size := 4
        ManufacturerString_Header_Size := 50
        ManufacturerString_WebUSB_Header_Size := 46
        ProductString_Header_Size := 24
        ProductString_WebUSB_Header_Size := 54 } }

/-- The bytes of `USARTtoUSB_Buffer` not yet handed to the host with success: the stored bytes,
less the oldest one while `main` stands between a successful `CDC_Device_SendByte` and the
`RingBuffer_Remove` that follows it. -/
def System.pending (s : System) : List Nat :=
  match s.pc with
  | .dequeue _ => s.m.USARTtoUSB_Buffer.contents.tail
  | _ => s.m.USARTtoUSB_Buffer.contents

/-- The invariant of the running firmware: both ring buffers are well formed with capacity
128; at the loop test no more sends are still to come than bytes are stored, and before a
`RingBuffer_Remove` of the send loop one more byte is stored than sends are still to come; and
in each direction the bytes inserted so far are the bytes handed on so far followed by the
bytes still waiting. -/
structure SysInv (s : System) : Prop where
  wf_out : s.m.USBtoUSART_Buffer.WF
  wf_in : s.m.USARTtoUSB_Buffer.WF
  size_out : s.m.USBtoUSART_Buffer.Size = 128
  size_in : s.m.USARTtoUSB_Buffer.Size = 128
  at_sendTest : ∀ n, s.pc = .sendTest n → n ≤ s.m.USARTtoUSB_Buffer.Count
  at_dequeue : ∀ n, s.pc = .dequeue n → n + 1 ≤ s.m.USARTtoUSB_Buffer.Count
  fifo_out :
    insertedInto .USBtoUSART_Buffer s.m.calls =
      uartSent s.m.calls ++ s.m.USBtoUSART_Buffer.contents
  fifo_in : insertedInto .USARTtoUSB_Buffer s.m.calls = usbInSent s.m.calls ++ s.pending

/-- The calls that persist the mode or belong to the reset sequence: `eeprom_write_byte` and
the calls `resetDeviceAfterTimeout` makes. -/
def Effect.persistsOrResets : Effect → Bool
  | .eeprom_write_byte _ _ => true
  | .USB_Disable => true
  | .cli => true
  | .Delay_MS _ => true
  | .wdt_enable_WDTO_250MS => true
  | .busy_wait => true
  | _ => false

/-- An Enable/Disable WebUSB request: host-to-device, vendor, device recipient,
`WEBUSB_VENDOR_CODE`, `wIndex = WebUSB_RTYPE_Enable`. -/
def isEnableRequest (c : Selectors) (req : USB_Request_Header) : Prop :=
  req.bmRequestType = 0x40 ∧ req.bRequest = WEBUSB_VENDOR_CODE ∧
    req.wIndex = c.WebUSB_RTYPE_Enable

/-- The live flag equals bit 0 of the byte at `WEBUSB_ENABLE_BYTE_ADDRESS`. -/
def Device.consistent (d : Device) : Prop :=
  d.WebUSB_Enabled = d.eeprom WEBUSB_ENABLE_BYTE_ADDRESS &&& 1

/-- A state used for concrete runs: after boot with a zeroed EEPROM, the receive interrupt has
delivered `0x41` and `0x42` while the device was configured, and `main` has read `0x61` from
the host; `main` stands before line 138. -/
def sampleSystem : System :=
  run sampleFirmware (boot fun _ => 0)
    [.USART1_RX 0x41 4, .USART1_RX 0x42 4,
      .main { ReceivedByte := 0x61, INReady := true, SendResult := 0, SendReady := true }]

/-! ## The target reset line -/

/-- LUFA `CDCClassCommon.h`: `CDC_CONTROL_LINE_OUT_DTR (1 << 0)`. -/
def CDC_CONTROL_LINE_OUT_DTR : Nat := 1 <<< 0

/-- `void EVENT_CDC_Device_ControLineStateChanged(USB_ClassInfo_CDC_Device_t* const
CDCInterfaceInfo)`, as a function of `State.ControlLineStates.HostToDevice` and of the value of
the 8-bit register `AVR_RESET_LINE_PORT`, giving the register's new value:
`bool CurrentDTRState = (HostToDevice & CDC_CONTROL_LINE_OUT_DTR);` then
`AVR_RESET_LINE_PORT &= ~AVR_RESET_LINE_MASK;` if it is true and
`AVR_RESET_LINE_PORT |= AVR_RESET_LINE_MASK;` otherwise.  `AVR_RESET_LINE_MASK` is defined in
`Arduino-usbserial.h`, outside the sources at hand, and is a parameter; `~` acts on the
operand promoted to a 16-bit `int`, and the result is stored in 8 bits. -/
def EVENT_CDC_Device_ControLineStateChanged (AVR_RESET_LINE_MASK HostToDevice
    AVR_RESET_LINE_PORT : Nat) : Nat :=
  let CurrentDTRState : Bool := (HostToDevice &&& CDC_CONTROL_LINE_OUT_DTR) ≠ 0
  if CurrentDTRState then
    (AVR_RESET_LINE_PORT &&& (0xFFFF ^^^ AVR_RESET_LINE_MASK)) % 256
  else
    (AVR_RESET_LINE_PORT ||| AVR_RESET_LINE_MASK) % 256

/-! ## The MS OS 2.0 descriptor sets -/

/-- The length fields of `MS_OS_20_Descriptor_Set_Header_t` that the initialisers in
`Arduino-usbserial.c` set. -/
structure MS_OS_20_Descriptor_Set_Header_t where
  Length : Nat
  TotalLength : Nat
  deriving DecidableEq, Repr

/-- The length fields of `MS_OS_20_Configuration_Subset_Header`. -/
structure MS_OS_20_Configuration_Subset_Header where
  Length : Nat
  ConfigurationValue : Nat
  TotalLength : Nat
  deriving DecidableEq, Repr

/-- The length fields of `MS_OS_20_Function_Subset_Header`, with `FirstInterface`. -/
structure MS_OS_20_Function_Subset_Header where
  Length : Nat
  FirstInterface : Nat
  SubsetLength : Nat
  deriving DecidableEq, Repr

/-- The length field of `MS_OS_20_CompatibleID_Descriptor`. -/
structure MS_OS_20_CompatibleID_Descriptor where
  Length : Nat
  deriving DecidableEq, Repr

/-- The length field of `MS_OS_20_Registry_Property_Descriptor`. -/
structure MS_OS_20_Registry_Property_Descriptor where
  Length : Nat
  deriving DecidableEq, Repr

/-- `Descriptors.h`: `MS_OS_20_Descriptor_t`, the seven components in the order of the
`struct`. -/
structure MS_OS_20_Descriptor_t where
  Header : MS_OS_20_Descriptor_Set_Header_t
  Configuration1 : MS_OS_20_Configuration_Subset_Header
  CDC_Function : MS_OS_20_Function_Subset_Header
  CDC_CompatibleID : MS_OS_20_CompatibleID_Descriptor
  WebUSB_Function : MS_OS_20_Function_Subset_Header
  WebUSB_CompatibleID : MS_OS_20_CompatibleID_Descriptor
  WebUSB_RegistryData : MS_OS_20_Registry_Property_Descriptor
  deriving DecidableEq, Repr

/-- `Descriptors.h`: `MS_OS_20_Descriptor_WebUSB_t`. -/
structure MS_OS_20_Descriptor_WebUSB_t where
  Header : MS_OS_20_Descriptor_Set_Header_t
  CompatibleID : MS_OS_20_CompatibleID_Descriptor
  deriving DecidableEq, Repr

/-- `Descriptors.h`, `enum InterfaceDescriptors_t`: `INTERFACE_ID_CDC_CCI = 0`. -/
def INTERFACE_ID_CDC_CCI : Nat := 0

/-- `Descriptors.h`, `enum InterfaceDescriptors_t`: `INTERFACE_ID_WEBUSB = 2`. -/
def INTERFACE_ID_WEBUSB : Nat := 2

/-- `Arduino-usbserial.c`, lines 238 to 301: the lengths declared in the initialiser of
`MS_OS_20_Descriptor`, each written as the source writes it (`CPU_TO_LE16` keeps the value). -/
def MS_OS_20_Descriptor : MS_OS_20_Descriptor_t :=
  { Header := { Length := 10, TotalLength := MS_OS_20_DESCRIPTOR_SET_TOTAL_LENGTH }
    Configuration1 := { Length := 8, ConfigurationValue := 1, TotalLength := 8 + 8 + 20 }
    CDC_Function :=
      { Length := 8, FirstInterface := INTERFACE_ID_CDC_CCI, SubsetLength := 8 + 20 }
    CDC_CompatibleID := { Length := 20 }
    WebUSB_Function :=
      { Length := 8, FirstInterface := INTERFACE_ID_WEBUSB,
        SubsetLength := 8 + 20 + 10 + 42 + 80 }
    WebUSB_CompatibleID := { Length := 20 }
    WebUSB_RegistryData := { Length := 10 + 42 + 80 } }

/-- `Arduino-usbserial.c`, lines 303 to 320: the lengths declared in the initialiser of
`MS_OS_20_Descriptor_WebUSB`. -/
def MS_OS_20_Descriptor_WebUSB : MS_OS_20_Descriptor_WebUSB_t :=
  { Header := { Length := 10, TotalLength := MS_OS_20_DESCRIPTOR_SET_TOTAL_LENGTH_WEBUSB }
    CompatibleID := { Length := 20 } }

/-! ## Accesses to the ring buffers -/

/-- What a recorded call needs of the machine it is made on, for the byte it reads from a ring
buffer to be a stored one: `CDC_Device_SendByte` is given `RingBuffer_Peek(
&USARTtoUSB_Buffer)`, and `RingBuffer_Remove` takes the head of the buffer it names, so the
count of that buffer has to be at least 1.  The other calls read no ring buffer. -/
def Call.readsStoredByte (m : Machine) : Call → Prop
  | .CDC_Device_SendByte _ _ => 1 ≤ m.USARTtoUSB_Buffer.Count
  | .RingBuffer_Remove .USARTtoUSB_Buffer _ => 1 ≤ m.USARTtoUSB_Buffer.Count
  | .RingBuffer_Remove .USBtoUSART_Buffer _ => 1 ≤ m.USBtoUSART_Buffer.Count
  | _ => True

/-! ## Helper lemmas -/

theorem devicetohost_vendor_device :
    (REQDIR_DEVICETOHOST ||| REQTYPE_VENDOR ||| REQREC_DEVICE) = 0xC0 := by decide

theorem hosttodevice_vendor_device :
    (REQDIR_HOSTTODEVICE ||| REQTYPE_VENDOR ||| REQREC_DEVICE) = 0x40 := by decide

/-- The controlling expression of the Enable arm is true exactly when the whole of `wValue`
differs from `WebUSB_Enabled`. -/
theorem enableCondition_iff (s : Device) (req : USB_Request_Header) :
    enableCondition s req = true ↔ s.WebUSB_Enabled ≠ req.wValue := by
  unfold enableCondition
  by_cases h : s.WebUSB_Enabled = req.wValue <;> simp [h]

/-- The dispatcher on an Enable/Disable request when the controlling expression is true. -/
theorem enable_taken (c : Selectors) (req : USB_Request_Header) (s : Device)
    (hty : req.bmRequestType = 0x40) (hreq : req.bRequest = WEBUSB_VENDOR_CODE)
    (hidx : req.wIndex = c.WebUSB_RTYPE_Enable) (hne : s.WebUSB_Enabled ≠ req.wValue) :
    EVENT_USB_Device_ControlRequest c req s =
      .noreturn
        { WebUSB_Enabled := req.wValue % 2
          eeprom := fun a => if a = WEBUSB_ENABLE_BYTE_ADDRESS then req.wValue % 2 else s.eeprom a
          trace := s.trace ++
            [.Endpoint_ClearSETUP, .eeprom_write_byte WEBUSB_ENABLE_BYTE_ADDRESS (req.wValue % 2),
              .Endpoint_ClearStatusStage, .USB_Disable, .cli, .Delay_MS 2000,
              .wdt_enable_WDTO_250MS, .busy_wait] } := by
  have hlt : req.wValue % 2 < 256 := by omega
  have hm : req.wValue % 2 % 256 = req.wValue % 2 := Nat.mod_eq_of_lt hlt
  simp [EVENT_USB_Device_ControlRequest, hosttodevice_vendor_device, devicetohost_vendor_device,
    hty, hostToDeviceVendor, hreq, hidx, enableCondition_iff, hne, hm, hlt, resetDeviceAfterTimeout, Outcome.andThen,
    eeprom_write_byte, Endpoint_ClearStatusStage, Endpoint_ClearSETUP, Device.emit]

/-- The dispatcher on an Enable/Disable request when the controlling expression is false. -/
theorem enable_not_taken (c : Selectors) (req : USB_Request_Header) (s : Device)
    (hty : req.bmRequestType = 0x40) (hreq : req.bRequest = WEBUSB_VENDOR_CODE)
    (hidx : req.wIndex = c.WebUSB_RTYPE_Enable) (heq : s.WebUSB_Enabled = req.wValue) :
    EVENT_USB_Device_ControlRequest c req s =
      .returned
        { s with
          trace := s.trace ++
            [.Endpoint_ClearSETUP, .Endpoint_ClearStatusStage, .Endpoint_StallTransaction] } := by
  simp [EVENT_USB_Device_ControlRequest, hosttodevice_vendor_device, devicetohost_vendor_device,
    hty, hostToDeviceVendor, hreq, hidx, enableCondition_iff, heq, Outcome.andThen,
    Endpoint_ClearStatusStage, Endpoint_ClearSETUP, Endpoint_StallTransaction, Device.emit]

/-! ## Enable/Disable WebUSB -/

/-- C1, the code at an input where the claim fails: the dispatcher receives an Enable/Disable
request with `wValue = 2` while `WebUSB_Enabled = 0`.  The low bit of `wValue` equals the
current value, yet the byte at `WEBUSB_ENABLE_BYTE_ADDRESS` is written and
`resetDeviceAfterTimeout(2000)` runs, so control never comes back. -/
theorem C1_equal_low_bit_still_persists_and_resets (c : Selectors) (eeprom : Nat → Nat)
    (wLength : Nat) :
    (2 &&& 1 : Nat) = 0 ∧
    EVENT_USB_Device_ControlRequest c
        { bmRequestType := 0x40, bRequest := 0x42, wValue := 2,
          wIndex := c.WebUSB_RTYPE_Enable, wLength := wLength }
        { WebUSB_Enabled := 0, eeprom := eeprom, trace := [] } =
      .noreturn
        { WebUSB_Enabled := 0
          eeprom := fun a => if a = 0x45 then 0 else eeprom a
          trace :=
            [.Endpoint_ClearSETUP, .eeprom_write_byte 0x45 0, .Endpoint_ClearStatusStage,
              .USB_Disable, .cli, .Delay_MS 2000, .wdt_enable_WDTO_250MS, .busy_wait] } := by
  refine ⟨by decide, ?_⟩
  have h := enable_taken c
    { bmRequestType := 0x40, bRequest := 0x42, wValue := 2,
      wIndex := c.WebUSB_RTYPE_Enable, wLength := wLength }
    { WebUSB_Enabled := 0, eeprom := eeprom, trace := [] } rfl rfl rfl (by simp)
  simpa [WEBUSB_ENABLE_BYTE_ADDRESS] using h

/-- C2: on an Enable/Disable WebUSB request whose `wValue` low bit differs from the current
`WebUSB_Enabled` (which is 0 or 1), the dispatcher sets the live flag to `wValue & 1`, writes
that value to the byte at `WEBUSB_ENABLE_BYTE_ADDRESS`, and after the write runs
`resetDeviceAfterTimeout(2000)`: `USB_Disable`, `cli`, `Delay_MS(2000)`, `wdt_enable`, busy
wait; control never comes back, and no other byte of the EEPROM changes. -/
theorem C2_differing_bit_persists_then_resets (c : Selectors) (req : USB_Request_Header)
    (s : Device)
    (hty : req.bmRequestType = 0x40) (hreq : req.bRequest = WEBUSB_VENDOR_CODE)
    (hidx : req.wIndex = c.WebUSB_RTYPE_Enable)
    (hbit : s.WebUSB_Enabled = 0 ∨ s.WebUSB_Enabled = 1)
    (hdiff : req.wValue &&& 1 ≠ s.WebUSB_Enabled) :
    EVENT_USB_Device_ControlRequest c req s =
      .noreturn
        { WebUSB_Enabled := req.wValue &&& 1
          eeprom := fun a =>
            if a = WEBUSB_ENABLE_BYTE_ADDRESS then req.wValue &&& 1 else s.eeprom a
          trace := s.trace ++
            [.Endpoint_ClearSETUP,
              .eeprom_write_byte WEBUSB_ENABLE_BYTE_ADDRESS (req.wValue &&& 1),
              .Endpoint_ClearStatusStage, .USB_Disable, .cli, .Delay_MS 2000,
              .wdt_enable_WDTO_250MS, .busy_wait] } := by
  rw [Nat.and_one_is_mod] at hdiff ⊢
  apply enable_taken c req s hty hreq hidx
  rcases hbit with h | h <;> omega

/-- C2 at the scenario current = 0, `wValue` = 1: the persisted byte becomes 1, the live flag
becomes 1, and the run ends in the reset and does not come back. -/
theorem C2_differing_bit_persists_then_resets_witness :
    (EVENT_USB_Device_ControlRequest sampleSelectors
        { bmRequestType := 0x40, bRequest := 0x42, wValue := 1, wIndex := 3, wLength := 0 }
        (freshDevice 0 0)).returns = false ∧
    (EVENT_USB_Device_ControlRequest sampleSelectors
        { bmRequestType := 0x40, bRequest := 0x42, wValue := 1, wIndex := 3, wLength := 0 }
        (freshDevice 0 0)).state.eeprom WEBUSB_ENABLE_BYTE_ADDRESS = 1 ∧
    (EVENT_USB_Device_ControlRequest sampleSelectors
        { bmRequestType := 0x40, bRequest := 0x42, wValue := 1, wIndex := 3, wLength := 0 }
        (freshDevice 0 0)).state.WebUSB_Enabled = 1 ∧
    (EVENT_USB_Device_ControlRequest sampleSelectors
        { bmRequestType := 0x40, bRequest := 0x42, wValue := 1, wIndex := 3, wLength := 0 }
        (freshDevice 0 0)).state.trace =
      [.Endpoint_ClearSETUP, .eeprom_write_byte 0x45 1, .Endpoint_ClearStatusStage,
        .USB_Disable, .cli, .Delay_MS 2000, .wdt_enable_WDTO_250MS, .busy_wait] := by
  have h := C2_differing_bit_persists_then_resets sampleSelectors
    { bmRequestType := 0x40, bRequest := 0x42, wValue := 1, wIndex := 3, wLength := 0 }
    (freshDevice 0 0) rfl rfl rfl (Or.inl rfl) (by decide)
  rw [h]
  exact ⟨rfl, rfl, rfl, rfl⟩

/-- C3: for every `wValue` (in particular every 16-bit one) and every prior state in which `WebUSB_Enabled` is 0 or 1
and equals bit 0 of the byte at `WEBUSB_ENABLE_BYTE_ADDRESS`, after the dispatcher has handled
an Enable/Disable WebUSB request both the live flag and bit 0 of that byte equal
`wValue & 1`. -/
theorem C3_low_bit_is_desired_state (c : Selectors) (req : USB_Request_Header) (s : Device)
    (hty : req.bmRequestType = 0x40) (hreq : req.bRequest = WEBUSB_VENDOR_CODE)
    (hidx : req.wIndex = c.WebUSB_RTYPE_Enable)
    (hbit : s.WebUSB_Enabled = 0 ∨ s.WebUSB_Enabled = 1)
    (hcons : s.eeprom WEBUSB_ENABLE_BYTE_ADDRESS &&& 1 = s.WebUSB_Enabled) :
    (EVENT_USB_Device_ControlRequest c req s).state.WebUSB_Enabled = req.wValue &&& 1 ∧
    (EVENT_USB_Device_ControlRequest c req s).state.eeprom WEBUSB_ENABLE_BYTE_ADDRESS &&& 1 =
      req.wValue &&& 1 := by
  rw [Nat.and_one_is_mod] at hcons
  by_cases h : s.WebUSB_Enabled = req.wValue
  · rw [enable_not_taken c req s hty hreq hidx h]
    simp only [Outcome.state, Nat.and_one_is_mod]
    rcases hbit with h0 | h0 <;> omega
  · rw [enable_taken c req s hty hreq hidx h]
    simp [Outcome.state, Nat.and_one_is_mod]

/-- C3 at `wValue = 0xFFFF` from the plain mode with a persisted 0: both the live flag and
bit 0 of the persisted byte end as 1. -/
theorem C3_low_bit_is_desired_state_witness :
    (EVENT_USB_Device_ControlRequest sampleSelectors
        { bmRequestType := 0x40, bRequest := 0x42, wValue := 0xFFFF, wIndex := 3, wLength := 0 }
        (freshDevice 0 0)).state.WebUSB_Enabled = 0xFFFF &&& 1 ∧
    (EVENT_USB_Device_ControlRequest sampleSelectors
        { bmRequestType := 0x40, bRequest := 0x42, wValue := 0xFFFF, wIndex := 3, wLength := 0 }
        (freshDevice 0 0)).state.eeprom WEBUSB_ENABLE_BYTE_ADDRESS &&& 1 = 0xFFFF &&& 1 :=
  C3_low_bit_is_desired_state sampleSelectors
    { bmRequestType := 0x40, bRequest := 0x42, wValue := 0xFFFF, wIndex := 3, wLength := 0 }
    (freshDevice 0 0) rfl rfl rfl (Or.inl rfl) rfl

/-! ## Descriptor requests -/

/-- C4: on a Get-URL request (device-to-host, vendor, device, `WEBUSB_VENDOR_CODE`,
`wIndex = WebUSB_RTYPE_GetURL`) with `wValue = WEBUSB_LANDING_PAGE_INDEX` the dispatcher
acknowledges the SETUP packet, writes `WebUSB_LandingPage` and completes the status stage,
with no stall; with any other `wValue` it only stalls and writes no descriptor.  The mode bit
and the EEPROM are untouched either way, and control returns. -/
theorem C4_get_url_landing_page_or_stall (c : Selectors) (req : USB_Request_Header)
    (s : Device)
    (hty : req.bmRequestType = 0xC0) (hreq : req.bRequest = WEBUSB_VENDOR_CODE)
    (hidx : req.wIndex = c.WebUSB_RTYPE_GetURL) :
    EVENT_USB_Device_ControlRequest c req s =
      .returned
        { s with
          trace := s.trace ++
            (if req.wValue = WEBUSB_LANDING_PAGE_INDEX then
              [.Endpoint_ClearSETUP,
                .Endpoint_Write_Control_PStream_LE .WebUSB_LandingPage
                  c.WebUSB_LandingPage_Header_Size,
                .Endpoint_ClearStatusStage]
            else
              [.Endpoint_StallTransaction]) } := by
  by_cases h : req.wValue = WEBUSB_LANDING_PAGE_INDEX <;>
    simp [EVENT_USB_Device_ControlRequest, devicetohost_vendor_device, hty, deviceToHostVendor,
      hreq, hidx, h, Endpoint_ClearSETUP, Endpoint_Write_Control_PStream_LE,
      Endpoint_ClearStatusStage, Endpoint_StallTransaction, Device.emit]

/-- C4 at the scenario of the specification: index 0 gives the landing page, index 5 a stall. -/
theorem C4_get_url_landing_page_or_stall_witness :
    (EVENT_USB_Device_ControlRequest sampleSelectors
        { bmRequestType := 0xC0, bRequest := 0x42, wValue := 0, wIndex := 2, wLength := 255 }
        (freshDevice 0 0)).state.trace =
      [.Endpoint_ClearSETUP, .Endpoint_Write_Control_PStream_LE .WebUSB_LandingPage 30,
        .Endpoint_ClearStatusStage] ∧
    (EVENT_USB_Device_ControlRequest sampleSelectors
        { bmRequestType := 0xC0, bRequest := 0x42, wValue := 5, wIndex := 2, wLength := 255 }
        (freshDevice 0 0)).state.trace = [.Endpoint_StallTransaction] := by
  constructor
  · rw [C4_get_url_landing_page_or_stall sampleSelectors
      { bmRequestType := 0xC0, bRequest := 0x42, wValue := 0, wIndex := 2, wLength := 255 }
      (freshDevice 0 0) rfl rfl rfl]
    rfl
  · rw [C4_get_url_landing_page_or_stall sampleSelectors
      { bmRequestType := 0xC0, bRequest := 0x42, wValue := 5, wIndex := 2, wLength := 255 }
      (freshDevice 0 0) rfl rfl rfl]
    rfl

/-- C5: on a Get-MS-OS-2.0-Descriptor-Set request (device-to-host, vendor, device,
`MS_OS_20_VENDOR_CODE`, `wIndex = MS_OS_20_DESCRIPTOR_INDEX`), whatever `wValue` is, the
dispatcher acknowledges the SETUP packet, writes `MS_OS_20_Descriptor_WebUSB` with its
`TotalLength` when `WebUSB_Enabled` is non-zero and `MS_OS_20_Descriptor` with its
`TotalLength` when it is zero, then completes the status stage; it does not stall, control
returns, and the mode bit and the EEPROM are unchanged. -/
theorem C5_ms_os_20_descriptor_by_mode (c : Selectors) (req : USB_Request_Header) (s : Device)
    (hty : req.bmRequestType = 0xC0) (hreq : req.bRequest = MS_OS_20_VENDOR_CODE)
    (hidx : req.wIndex = c.MS_OS_20_DESCRIPTOR_INDEX) :
    EVENT_USB_Device_ControlRequest c req s =
      .returned
        { s with
          trace := s.trace ++
            [.Endpoint_ClearSETUP,
              (if s.WebUSB_Enabled ≠ 0 then
                .Endpoint_Write_Control_PStream_LE .MS_OS_20_Descriptor_WebUSB
                  MS_OS_20_DESCRIPTOR_SET_TOTAL_LENGTH_WEBUSB
              else
                .Endpoint_Write_Control_PStream_LE .MS_OS_20_Descriptor
                  MS_OS_20_DESCRIPTOR_SET_TOTAL_LENGTH),
              .Endpoint_ClearStatusStage] } := by
  have hv : MS_OS_20_VENDOR_CODE ≠ WEBUSB_VENDOR_CODE := by decide
  by_cases h : s.WebUSB_Enabled = 0 <;>
    simp [EVENT_USB_Device_ControlRequest, devicetohost_vendor_device, hty, deviceToHostVendor,
      hreq, hidx, h, hv, Endpoint_ClearSETUP, Endpoint_Write_Control_PStream_LE,
      Endpoint_ClearStatusStage, Device.emit]

/-- C5 in both modes: 30 bytes of the reduced set when enabled, 206 bytes of the full set
otherwise. -/
theorem C5_ms_os_20_descriptor_by_mode_witness :
    (EVENT_USB_Device_ControlRequest sampleSelectors
        { bmRequestType := 0xC0, bRequest := 0x45, wValue := 0, wIndex := 7, wLength := 255 }
        (freshDevice 1 1)).state.trace =
      [.Endpoint_ClearSETUP, .Endpoint_Write_Control_PStream_LE .MS_OS_20_Descriptor_WebUSB 30,
        .Endpoint_ClearStatusStage] ∧
    (EVENT_USB_Device_ControlRequest sampleSelectors
        { bmRequestType := 0xC0, bRequest := 0x45, wValue := 9, wIndex := 7, wLength := 255 }
        (freshDevice 0 0)).state.trace =
      [.Endpoint_ClearSETUP, .Endpoint_Write_Control_PStream_LE .MS_OS_20_Descriptor 206,
        .Endpoint_ClearStatusStage] := by
  constructor
  · rw [C5_ms_os_20_descriptor_by_mode sampleSelectors
      { bmRequestType := 0xC0, bRequest := 0x45, wValue := 0, wIndex := 7, wLength := 255 }
      (freshDevice 1 1) rfl rfl rfl]
    rfl
  · rw [C5_ms_os_20_descriptor_by_mode sampleSelectors
      { bmRequestType := 0xC0, bRequest := 0x45, wValue := 9, wIndex := 7, wLength := 255 }
      (freshDevice 0 0) rfl rfl rfl]
    rfl

/-- C6, the code on Set-Alternate-Enumeration requests (device-to-host, vendor, device,
`MS_OS_20_VENDOR_CODE`, `wIndex = MS_OS_20_SET_ALT_ENUMERATION`): when `wValue` equals
`MS_OS_20_ALTERNATE_ENUMERATION_CODE << 8` the dispatcher acknowledges the SETUP packet and
then, running on into the enclosing `default:`, stalls the transaction; for any other `wValue`
it stalls (twice).  So the accepted request is stalled as well. -/
theorem C6_set_alt_enumeration_always_stalls (c : Selectors) (req : USB_Request_Header)
    (s : Device)
    (hty : req.bmRequestType = 0xC0) (hreq : req.bRequest = MS_OS_20_VENDOR_CODE)
    (hidx : req.wIndex = c.MS_OS_20_SET_ALT_ENUMERATION)
    (hlabels : c.MS_OS_20_DESCRIPTOR_INDEX ≠ c.MS_OS_20_SET_ALT_ENUMERATION) :
    EVENT_USB_Device_ControlRequest c req s =
      .returned
        { s with
          trace := s.trace ++
            (if req.wValue = c.MS_OS_20_ALTERNATE_ENUMERATION_CODE <<< 8 then
              [.Endpoint_ClearSETUP, .Endpoint_StallTransaction]
            else
              [.Endpoint_StallTransaction, .Endpoint_StallTransaction]) } := by
  have hv : MS_OS_20_VENDOR_CODE ≠ WEBUSB_VENDOR_CODE := by decide
  have hl : c.MS_OS_20_SET_ALT_ENUMERATION ≠ c.MS_OS_20_DESCRIPTOR_INDEX := Ne.symm hlabels
  by_cases h : req.wValue = c.MS_OS_20_ALTERNATE_ENUMERATION_CODE <<< 8 <;>
    simp [EVENT_USB_Device_ControlRequest, devicetohost_vendor_device, hty, deviceToHostVendor,
      hreq, hidx, h, hv, hl, setAltEnumerationSwitch, Endpoint_ClearSETUP,
      Endpoint_StallTransaction, Device.emit]

/-- C6 at the failing input: alternate enumeration code 0, so `wValue = 0 << 8 = 0`; the
request with the matching code is acknowledged and then stalled. -/
theorem C6_set_alt_enumeration_always_stalls_witness :
    (EVENT_USB_Device_ControlRequest sampleSelectors
        { bmRequestType := 0xC0, bRequest := 0x45, wValue := 0, wIndex := 8, wLength := 0 }
        (freshDevice 0 0)).state.trace =
      [.Endpoint_ClearSETUP, .Endpoint_StallTransaction] := by
  rw [C6_set_alt_enumeration_always_stalls sampleSelectors
    { bmRequestType := 0xC0, bRequest := 0x45, wValue := 0, wIndex := 8, wLength := 0 }
    (freshDevice 0 0) rfl rfl rfl (by decide)]
  rfl

/-! ## Rejected and delegated requests -/

/-- C7, refuted as stated: a vendor request to the interface recipient (`bmRequestType = 0xC1`)
with the unrecognised request code `0x99` is not stalled by the dispatcher; it is handed to
`CDC_Device_ProcessControlRequest` and nothing else happens.  Hence "every request with an
unrecognised code, for any direction and any recipient, is stalled by the dispatcher" is
false. -/
theorem C7_counterexample_interface_recipient_not_stalled :
    (EVENT_USB_Device_ControlRequest sampleSelectors
        { bmRequestType := 0xC1, bRequest := 0x99, wValue := 0, wIndex := 0, wLength := 0 }
        (freshDevice 0 0)).state.trace = [.CDC_Device_ProcessControlRequest] ∧
    ¬ (∀ (c : Selectors) (req : USB_Request_Header) (s : Device),
        req.bRequest ≠ WEBUSB_VENDOR_CODE → req.bRequest ≠ MS_OS_20_VENDOR_CODE →
        Effect.Endpoint_StallTransaction ∈
          (EVENT_USB_Device_ControlRequest c req s).state.trace) := by
  have ht : (EVENT_USB_Device_ControlRequest sampleSelectors
      { bmRequestType := 0xC1, bRequest := 0x99, wValue := 0, wIndex := 0, wLength := 0 }
      (freshDevice 0 0)).state.trace = [.CDC_Device_ProcessControlRequest] := by decide
  refine ⟨ht, fun h => ?_⟩
  have hm := h sampleSelectors
    { bmRequestType := 0xC1, bRequest := 0x99, wValue := 0, wIndex := 0, wLength := 0 }
    (freshDevice 0 0) (by decide) (by decide)
  rw [ht] at hm
  simp at hm

/-- C7 as amended: a control request whose `bRequest` is neither `WEBUSB_VENDOR_CODE` nor
`MS_OS_20_VENDOR_CODE` is stalled by the dispatcher, and nothing else is done, when it is a
vendor request to the device in either direction (`bmRequestType` `0xC0` or `0x40`); with any
other `bmRequestType` the dispatcher only calls `CDC_Device_ProcessControlRequest` and does
not stall. -/
theorem C7_unrecognized_code_stalls_for_vendor_device (c : Selectors)
    (req : USB_Request_Header) (s : Device)
    (hweb : req.bRequest ≠ WEBUSB_VENDOR_CODE) (hms : req.bRequest ≠ MS_OS_20_VENDOR_CODE) :
    EVENT_USB_Device_ControlRequest c req s =
      .returned
        { s with
          trace := s.trace ++
            [if req.bmRequestType = 0xC0 ∨ req.bmRequestType = 0x40 then
              .Endpoint_StallTransaction
            else
              .CDC_Device_ProcessControlRequest] } := by
  by_cases h1 : req.bmRequestType = 0xC0
  · simp [EVENT_USB_Device_ControlRequest, devicetohost_vendor_device, h1, deviceToHostVendor,
      hweb, hms, Endpoint_StallTransaction, Device.emit]
  · by_cases h2 : req.bmRequestType = 0x40
    · simp [EVENT_USB_Device_ControlRequest, devicetohost_vendor_device,
        hosttodevice_vendor_device, h2, hostToDeviceVendor, hweb, Endpoint_StallTransaction,
        Device.emit]
    · simp [EVENT_USB_Device_ControlRequest, devicetohost_vendor_device,
        hosttodevice_vendor_device, h1, h2, CDC_Device_ProcessControlRequest, Device.emit]

/-- C7 as amended, at request code `0x99` to the device in both directions: one stall. -/
theorem C7_unrecognized_code_stalls_for_vendor_device_witness :
    (EVENT_USB_Device_ControlRequest sampleSelectors
        { bmRequestType := 0xC0, bRequest := 0x99, wValue := 0, wIndex := 2, wLength := 0 }
        (freshDevice 1 1)).state.trace = [.Endpoint_StallTransaction] ∧
    (EVENT_USB_Device_ControlRequest sampleSelectors
        { bmRequestType := 0x40, bRequest := 0x99, wValue := 1, wIndex := 3, wLength := 0 }
        (freshDevice 0 0)).state.trace = [.Endpoint_StallTransaction] := by
  constructor
  · rw [C7_unrecognized_code_stalls_for_vendor_device sampleSelectors
      { bmRequestType := 0xC0, bRequest := 0x99, wValue := 0, wIndex := 2, wLength := 0 }
      (freshDevice 1 1) (by decide) (by decide)]
    rfl
  · rw [C7_unrecognized_code_stalls_for_vendor_device sampleSelectors
      { bmRequestType := 0x40, bRequest := 0x99, wValue := 1, wIndex := 3, wLength := 0 }
      (freshDevice 0 0) (by decide) (by decide)]
    rfl

/-- C8: for a vendor request to the device in either direction (`bmRequestType` `0xC0` or
`0x40`) whose selector is not recognised, namely `bRequest` is neither vendor code, or it is
`MS_OS_20_VENDOR_CODE` in the host-to-device direction, or it is a vendor code of that
direction but `wIndex` is none of its sub-requests there, or it is Get-URL with `wValue`
different from `WEBUSB_LANDING_PAGE_INDEX`, the dispatcher stalls the transaction and does
nothing else: the stall is the only call made (no descriptor write, no SETUP
acknowledgement, no status stage), `WebUSB_Enabled` and the EEPROM are unchanged, and control
returns. -/
theorem C8_unrecognized_selector_only_stalls (c : Selectors) (req : USB_Request_Header)
    (s : Device)
    (hsel :
      (req.bmRequestType = 0xC0 ∨ req.bmRequestType = 0x40) ∧
        (req.bRequest ≠ WEBUSB_VENDOR_CODE ∧ req.bRequest ≠ MS_OS_20_VENDOR_CODE) ∨
      (req.bmRequestType = 0x40 ∧ req.bRequest = MS_OS_20_VENDOR_CODE) ∨
      (req.bmRequestType = 0xC0 ∧ req.bRequest = WEBUSB_VENDOR_CODE ∧
        req.wIndex ≠ c.WebUSB_RTYPE_GetURL) ∨
      (req.bmRequestType = 0xC0 ∧ req.bRequest = MS_OS_20_VENDOR_CODE ∧
        req.wIndex ≠ c.MS_OS_20_DESCRIPTOR_INDEX ∧
        req.wIndex ≠ c.MS_OS_20_SET_ALT_ENUMERATION) ∨
      (req.bmRequestType = 0x40 ∧ req.bRequest = WEBUSB_VENDOR_CODE ∧
        req.wIndex ≠ c.WebUSB_RTYPE_Enable) ∨
      (req.bmRequestType = 0xC0 ∧ req.bRequest = WEBUSB_VENDOR_CODE ∧
        req.wIndex = c.WebUSB_RTYPE_GetURL ∧ req.wValue ≠ WEBUSB_LANDING_PAGE_INDEX)) :
    EVENT_USB_Device_ControlRequest c req s =
      .returned { s with trace := s.trace ++ [.Endpoint_StallTransaction] } := by
  have hv : MS_OS_20_VENDOR_CODE ≠ WEBUSB_VENDOR_CODE := by decide
  rcases hsel with ⟨hty | hty, hweb, hms⟩ | ⟨hty, hreq⟩ | ⟨hty, hreq, hidx⟩ |
      ⟨hty, hreq, hidx, hidx2⟩ | ⟨hty, hreq, hidx⟩ | ⟨hty, hreq, hidx, hval⟩ <;>
    simp [EVENT_USB_Device_ControlRequest, devicetohost_vendor_device,
      hosttodevice_vendor_device, hty, deviceToHostVendor, hostToDeviceVendor, *,
      Endpoint_StallTransaction, Device.emit]

/-- C8 at the MS OS 2.0 vendor code sent host-to-device with the WebUSB mode on. -/
theorem C8_unrecognized_selector_only_stalls_witness :
    (EVENT_USB_Device_ControlRequest sampleSelectors
        { bmRequestType := 0x40, bRequest := 0x45, wValue := 1, wIndex := 7, wLength := 0 }
        (freshDevice 1 1)).state.trace = [.Endpoint_StallTransaction] ∧
    (EVENT_USB_Device_ControlRequest sampleSelectors
        { bmRequestType := 0x40, bRequest := 0x45, wValue := 1, wIndex := 7, wLength := 0 }
        (freshDevice 1 1)).state.WebUSB_Enabled = 1 := by
  rw [C8_unrecognized_selector_only_stalls sampleSelectors
    { bmRequestType := 0x40, bRequest := 0x45, wValue := 1, wIndex := 7, wLength := 0 }
    (freshDevice 1 1) (Or.inr (Or.inl ⟨rfl, rfl⟩))]
  exact ⟨rfl, rfl⟩

/-- C9, the code at an input where the claim fails: an Enable/Disable request with
`wValue = 0` while `WebUSB_Enabled = 0`.  The dispatcher acknowledges the SETUP packet,
completes the status stage and then, running on into `default:`, stalls the transaction: a
status-stage completion together with a stall, with no descriptor write and no reset. -/
theorem C9_completion_together_with_stall (c : Selectors) (eeprom : Nat → Nat)
    (wLength : Nat) :
    EVENT_USB_Device_ControlRequest c
        { bmRequestType := 0x40, bRequest := 0x42, wValue := 0,
          wIndex := c.WebUSB_RTYPE_Enable, wLength := wLength }
        { WebUSB_Enabled := 0, eeprom := eeprom, trace := [] } =
      .returned
        { WebUSB_Enabled := 0
          eeprom := eeprom
          trace :=
            [.Endpoint_ClearSETUP, .Endpoint_ClearStatusStage, .Endpoint_StallTransaction] } := by
  have h := enable_not_taken c
    { bmRequestType := 0x40, bRequest := 0x42, wValue := 0,
      wIndex := c.WebUSB_RTYPE_Enable, wLength := wLength }
    { WebUSB_Enabled := 0, eeprom := eeprom, trace := [] } rfl rfl rfl rfl
  simpa using h

/-- C10: for every control request whose type bits (`bmRequestType & CONTROL_REQTYPE_TYPE`)
are not `REQTYPE_VENDOR`, the dispatcher calls `CDC_Device_ProcessControlRequest` exactly
once and does nothing else itself: no stall, no descriptor write, no SETUP acknowledgement,
and `WebUSB_Enabled` and the EEPROM are unchanged. -/
theorem C10_non_vendor_goes_to_cdc (c : Selectors) (req : USB_Request_Header) (s : Device)
    (hty : req.bmRequestType &&& CONTROL_REQTYPE_TYPE ≠ REQTYPE_VENDOR) :
    EVENT_USB_Device_ControlRequest c req s =
      .returned { s with trace := s.trace ++ [.CDC_Device_ProcessControlRequest] } := by
  have h1 : req.bmRequestType ≠ 0xC0 := by
    intro h; rw [h] at hty; exact hty (by decide)
  have h2 : req.bmRequestType ≠ 0x40 := by
    intro h; rw [h] at hty; exact hty (by decide)
  simp [EVENT_USB_Device_ControlRequest, devicetohost_vendor_device,
    hosttodevice_vendor_device, h1, h2, CDC_Device_ProcessControlRequest, Device.emit]

/-- C10 at the class request `SetLineEncoding` (`bmRequestType = 0x21`, `bRequest = 0x20`). -/
theorem C10_non_vendor_goes_to_cdc_witness :
    (0x21 &&& CONTROL_REQTYPE_TYPE ≠ REQTYPE_VENDOR) ∧
    (EVENT_USB_Device_ControlRequest sampleSelectors
        { bmRequestType := 0x21, bRequest := 0x20, wValue := 0, wIndex := 0, wLength := 7 }
        (freshDevice 1 1)).state.trace = [.CDC_Device_ProcessControlRequest] := by
  refine ⟨by decide, ?_⟩
  rw [C10_non_vendor_goes_to_cdc sampleSelectors
    { bmRequestType := 0x21, bRequest := 0x20, wValue := 0, wIndex := 0, wLength := 7 }
    (freshDevice 1 1) (by decide)]
  rfl

/-! ## Ring buffer lemmas -/

theorem mod_wrap (a n : Nat) (h : a < 2 * n) :
    a % n = if a < n then a else a - n := by
  split
  · next h1 => exact Nat.mod_eq_of_lt h1
  · next h1 =>
    have h2 : n ≤ a := Nat.le_of_not_lt h1
    rw [Nat.mod_eq_sub_mod h2]
    exact Nat.mod_eq_of_lt (by omega)

theorem initBuffer_wf (Size : Nat) (h0 : 0 < Size) (h1 : Size < 65536) :
    (RingBuffer_InitBuffer Size).WF :=
  { size_pos := h0, size_lt := h1, out_lt := h0, count_le := Nat.zero_le _,
    in_eq := by simp [RingBuffer_InitBuffer] }

theorem initBuffer_contents (Size : Nat) : (RingBuffer_InitBuffer Size).contents = [] := by
  simp [RingBuffer_InitBuffer, RingBuffer_t.contents]

theorem contents_length (r : RingBuffer_t) : r.contents.length = r.Count := by
  simp [RingBuffer_t.contents]

theorem insert_count (r : RingBuffer_t) (b : Nat) (hwf : r.WF) (hroom : r.Count < r.Size) :
    (RingBuffer_Insert r b).Count = r.Count + 1 := by
  have := hwf.size_lt
  simp only [RingBuffer_Insert]
  omega

theorem insert_wf (r : RingBuffer_t) (b : Nat) (hwf : r.WF) (hroom : r.Count < r.Size) :
    (RingBuffer_Insert r b).WF := by
  have hc := insert_count r b hwf hroom
  refine { size_pos := hwf.size_pos, size_lt := hwf.size_lt, out_lt := hwf.out_lt,
           count_le := ?_, in_eq := ?_ }
  · rw [hc]; exact hroom
  · rw [hc]
    show (r.In + 1) % r.Size = (r.Out + (r.Count + 1)) % r.Size
    rw [hwf.in_eq, Nat.mod_add_mod, Nat.add_assoc]

theorem insert_contents (r : RingBuffer_t) (b : Nat) (hwf : r.WF) (hroom : r.Count < r.Size) :
    (RingBuffer_Insert r b).contents = r.contents ++ [b] := by
  have hc := insert_count r b hwf hroom
  have hout := hwf.out_lt
  have hle := hwf.count_le
  unfold RingBuffer_t.contents
  rw [hc, List.range_succ, List.map_append]
  congr 1
  · apply List.map_congr_left
    intro i hi
    have hi' : i < r.Count := List.mem_range.mp hi
    show (if (r.Out + i) % r.Size = r.In then b else r.Data ((r.Out + i) % r.Size)) = _
    have hne : (r.Out + i) % r.Size ≠ r.In := by
      rw [hwf.in_eq, mod_wrap _ _ (by omega), mod_wrap _ _ (by omega)]
      split <;> split <;> omega
    simp [hne]
  · show [if (r.Out + r.Count) % r.Size = r.In then b else _] = [b]
    simp [hwf.in_eq]

theorem remove_count (r : RingBuffer_t) (hwf : r.WF) (hpos : 0 < r.Count) :
    (RingBuffer_Remove r).2.Count = r.Count - 1 := by
  have := hwf.size_lt
  have := hwf.count_le
  simp only [RingBuffer_Remove]
  omega

theorem remove_fst (r : RingBuffer_t) : (RingBuffer_Remove r).1 = r.Data r.Out := rfl

theorem remove_size (r : RingBuffer_t) : (RingBuffer_Remove r).2.Size = r.Size := rfl

theorem remove_out (r : RingBuffer_t) : (RingBuffer_Remove r).2.Out = (r.Out + 1) % r.Size := rfl

theorem remove_in (r : RingBuffer_t) : (RingBuffer_Remove r).2.In = r.In := rfl

theorem remove_data (r : RingBuffer_t) : (RingBuffer_Remove r).2.Data = r.Data := rfl

theorem remove_wf (r : RingBuffer_t) (hwf : r.WF) (hpos : 0 < r.Count) :
    (RingBuffer_Remove r).2.WF := by
  have hc := remove_count r hwf hpos
  have hle := hwf.count_le
  have hout := hwf.out_lt
  refine { size_pos := hwf.size_pos, size_lt := hwf.size_lt,
           out_lt := Nat.mod_lt _ hwf.size_pos, count_le := ?_, in_eq := ?_ }
  · rw [hc, remove_size]; omega
  · have he : r.Out + 1 + (r.Count - 1) = r.Out + r.Count := by omega
    rw [hc, remove_size, remove_out, remove_in, hwf.in_eq, Nat.mod_add_mod, he]

theorem remove_contents (r : RingBuffer_t) (hwf : r.WF) (hpos : 0 < r.Count) :
    r.contents = (RingBuffer_Remove r).1 :: (RingBuffer_Remove r).2.contents := by
  have hc := remove_count r hwf hpos
  have hout := hwf.out_lt
  unfold RingBuffer_t.contents
  rw [hc, remove_size, remove_out, remove_data, remove_fst]
  obtain ⟨k, hk⟩ : ∃ k, r.Count = k + 1 := ⟨r.Count - 1, by omega⟩
  rw [hk, List.range_succ_eq_map, List.map_cons, List.map_map]
  simp only [Nat.add_sub_cancel, Nat.add_zero, Nat.mod_eq_of_lt hout]
  refine congrArg (List.cons (r.Data r.Out)) ?_
  apply List.map_congr_left
  intro i _
  have he : r.Out + 1 + i = r.Out + (i + 1) := by omega
  simp only [Function.comp, Nat.succ_eq_add_one]
  rw [Nat.mod_add_mod, he]

theorem peek_eq_remove (r : RingBuffer_t) : RingBuffer_Peek r = (RingBuffer_Remove r).1 := rfl

/-! ## Lemmas on the call log -/

theorem usbInSent_append (a b : List Call) : usbInSent (a ++ b) = usbInSent a ++ usbInSent b := by
  simp [usbInSent, List.filterMap_append]

theorem sendByteCalls_append (a b : List Call) :
    sendByteCalls (a ++ b) = sendByteCalls a ++ sendByteCalls b := by
  simp [sendByteCalls, List.filterMap_append]

theorem uartSent_append (a b : List Call) : uartSent (a ++ b) = uartSent a ++ uartSent b := by
  simp [uartSent, List.filterMap_append]

theorem insertedInto_append (n : BufferName) (a b : List Call) :
    insertedInto n (a ++ b) = insertedInto n a ++ insertedInto n b := by
  simp [insertedInto, List.filterMap_append]

theorem usbInSent_nil : usbInSent [] = [] := rfl

theorem usbInSent_cons (c : Call) (cs : List Call) :
    usbInSent (c :: cs) =
      (match c with
        | .CDC_Device_SendByte data result =>
          if result = ENDPOINT_READYWAIT_NoError then [data] else []
        | _ => []) ++ usbInSent cs := by
  cases c <;>
    first
      | (simp [usbInSent, List.filterMap_cons]; done)
      | (rename_i data result
         by_cases h : result = ENDPOINT_READYWAIT_NoError <;>
           simp [usbInSent, List.filterMap_cons, h])

theorem sendByteCalls_nil : sendByteCalls [] = [] := rfl

theorem sendByteCalls_cons (c : Call) (cs : List Call) :
    sendByteCalls (c :: cs) =
      (match c with
        | .CDC_Device_SendByte _ result => [result]
        | _ => []) ++ sendByteCalls cs := by
  cases c <;> simp [sendByteCalls, List.filterMap_cons]

theorem uartSent_nil : uartSent [] = [] := rfl

theorem uartSent_cons (c : Call) (cs : List Call) :
    uartSent (c :: cs) =
      (match c with
        | .Serial_SendByte data => [data]
        | _ => []) ++ uartSent cs := by
  cases c <;> simp [uartSent, List.filterMap_cons]

theorem insertedInto_nil (n : BufferName) : insertedInto n [] = [] := rfl

theorem insertedInto_cons (n : BufferName) (c : Call) (cs : List Call) :
    insertedInto n (c :: cs) =
      (match c with
        | .RingBuffer_Insert b data => if b = n then [data] else []
        | _ => []) ++ insertedInto n cs := by
  cases c <;>
    first
      | (simp [insertedInto, List.filterMap_cons]; done)
      | (rename_i b data
         by_cases h : b = n <;> simp [insertedInto, List.filterMap_cons, h])

theorem isFull_eq_false (r : RingBuffer_t) : RingBuffer_IsFull r = false ↔ r.Count ≠ r.Size := by
  simp [RingBuffer_IsFull, RingBuffer_GetCount]

theorem isFull_eq_true (r : RingBuffer_t) : RingBuffer_IsFull r = true ↔ r.Count = r.Size := by
  simp [RingBuffer_IsFull, RingBuffer_GetCount]

theorem isEmpty_eq_true (r : RingBuffer_t) : RingBuffer_IsEmpty r = true ↔ r.Count = 0 := by
  simp [RingBuffer_IsEmpty, RingBuffer_GetCount]

/-! ## The pieces of `main` and the interrupt, one by one -/

/-- What `main_readFromHost` does, case by case. -/
theorem readFromHost_eq (rb : Int) (m : Machine) :
    main_readFromHost rb m =
      if m.USBtoUSART_Buffer.Count = m.USBtoUSART_Buffer.Size then m
      else if rb < 0 then { m with calls := m.calls ++ [.CDC_Device_ReceiveByte rb] }
      else
        { m with
          calls := m.calls ++
            [.CDC_Device_ReceiveByte rb,
              .RingBuffer_Insert .USBtoUSART_Buffer (rb % 256).toNat]
          USBtoUSART_Buffer := RingBuffer_Insert m.USBtoUSART_Buffer (rb % 256).toNat } := by
  unfold main_readFromHost
  by_cases hfull : m.USBtoUSART_Buffer.Count = m.USBtoUSART_Buffer.Size
  · simp [(isFull_eq_true _).2 hfull, hfull]
  · by_cases hneg : rb < 0
    · simp [(isFull_eq_false _).2 hfull, hfull, hneg, Machine.call]
    · simp [(isFull_eq_false _).2 hfull, hfull, hneg, Machine.call]

/-- What `main_sendBegin` does, case by case; `BytesToSend` is `min Count 63`, which the
`uint8_t` holds without truncation. -/
theorem sendBegin_eq (p : Nat) (ready : Bool) (m : Machine) :
    main_sendBegin p ready m =
      if m.USARTtoUSB_Buffer.Count = 0 then (m, none)
      else if ready = true then
        ({ m with
            calls := m.calls ++
              [.Endpoint_SelectEndpoint CDC_TX_EPADDR, .Endpoint_IsINReady true,
                .LEDs_TurnOnLEDs_LEDMASK_TX]
            TxLEDPulseTimer := p },
          some (min m.USARTtoUSB_Buffer.Count 63))
      else
        ({ m with
            calls := m.calls ++
              [.Endpoint_SelectEndpoint CDC_TX_EPADDR, .Endpoint_IsINReady false] },
          none) := by
  unfold main_sendBegin
  have hmin : min m.USARTtoUSB_Buffer.Count 63 % 256 = min m.USARTtoUSB_Buffer.Count 63 := by
    omega
  by_cases h0 : m.USARTtoUSB_Buffer.Count = 0
  · simp [RingBuffer_GetCount, h0]
  · cases ready <;> simp [RingBuffer_GetCount, h0, Machine.call, CDC_TXRX_EPSIZE, hmin]

/-- What `main_sendAttempt` does. -/
theorem sendAttempt_eq (result : Nat) (m : Machine) :
    main_sendAttempt result m =
      ({ m with
          calls := m.calls ++
            [.CDC_Device_SendByte (m.USARTtoUSB_Buffer.Data m.USARTtoUSB_Buffer.Out) result] },
        decide (result = ENDPOINT_READYWAIT_NoError)) := by
  unfold main_sendAttempt
  by_cases h : result = ENDPOINT_READYWAIT_NoError <;>
    simp [h, Machine.call, RingBuffer_Peek]

/-- What `main_dequeueSent` does. -/
theorem dequeueSent_eq (m : Machine) :
    main_dequeueSent m =
      { m with
        calls := m.calls ++
          [.RingBuffer_Remove .USARTtoUSB_Buffer
            (m.USARTtoUSB_Buffer.Data m.USARTtoUSB_Buffer.Out)]
        USARTtoUSB_Buffer := (RingBuffer_Remove m.USARTtoUSB_Buffer).2 } := by
  simp [main_dequeueSent, Machine.call, remove_fst]

/-- What `main_loadUART` does, case by case. -/
theorem loadUART_eq (p : Nat) (ready : Bool) (m : Machine) :
    main_loadUART p ready m =
      if ready = true ∧ m.USBtoUSART_Buffer.Count ≠ 0 then
        { m with
          calls := m.calls ++
            [.Serial_IsSendReady true, .LEDs_TurnOnLEDs_LEDMASK_RX,
              .RingBuffer_Remove .USBtoUSART_Buffer
                (m.USBtoUSART_Buffer.Data m.USBtoUSART_Buffer.Out),
              .Serial_SendByte (m.USBtoUSART_Buffer.Data m.USBtoUSART_Buffer.Out)]
          RxLEDPulseTimer := p
          USBtoUSART_Buffer := (RingBuffer_Remove m.USBtoUSART_Buffer).2 }
      else
        { m with calls := m.calls ++ [.Serial_IsSendReady ready] } := by
  unfold main_loadUART
  by_cases h0 : m.USBtoUSART_Buffer.Count = 0
  · simp [Machine.call, RingBuffer_IsEmpty, RingBuffer_GetCount, h0]
  · cases ready <;>
      simp [Machine.call, RingBuffer_IsEmpty, RingBuffer_GetCount, h0, remove_fst]

/-- What the receive interrupt does, case by case. -/
theorem USART1_RX_vect_eq (UDR1 st : Nat) (m : Machine) :
    USART1_RX_vect UDR1 st m =
      if st = DEVICE_STATE_Configured ∧ m.USARTtoUSB_Buffer.Count ≠ m.USARTtoUSB_Buffer.Size then
        { m with
          calls := m.calls ++ [.RingBuffer_Insert .USARTtoUSB_Buffer (UDR1 % 256)]
          USARTtoUSB_Buffer := RingBuffer_Insert m.USARTtoUSB_Buffer (UDR1 % 256) }
      else m := by
  unfold USART1_RX_vect
  by_cases hst : st = DEVICE_STATE_Configured <;>
    by_cases hfull : m.USARTtoUSB_Buffer.Count = m.USARTtoUSB_Buffer.Size <;>
    simp [hst, hfull, Machine.call, RingBuffer_IsFull, RingBuffer_GetCount]

/-- The descriptor callback leaves everything but the call log as it was, and adds at most
LED toggles to the log. -/
theorem getDescriptor_frame (z : DescriptorSizes) (wValue wIndex : Nat) (m : Machine) :
    ∃ cs : List Call,
      (CALLBACK_USB_GetDescriptor z wValue wIndex m).2 = { m with calls := m.calls ++ cs } ∧
      usbInSent cs = [] ∧ uartSent cs = [] ∧ sendByteCalls cs = [] ∧
      ∀ n, insertedInto n cs = [] := by
  unfold CALLBACK_USB_GetDescriptor
  simp only []
  split_ifs <;>
    first
      | exact ⟨[.LEDs_ToggleLEDs_LEDS_LED1], rfl, rfl, rfl, rfl, fun _ => rfl⟩
      | exact ⟨[.LEDs_ToggleLEDs_LEDS_ALL_LEDS], rfl, rfl, rfl, rfl, fun _ => rfl⟩
      | exact ⟨[], by simp, rfl, rfl, rfl, fun _ => rfl⟩

/-! ## The invariant of the running firmware -/

theorem boot_inv (eeprom : Nat → Nat) : SysInv (boot eeprom) := by
  have hwf : (RingBuffer_InitBuffer 128).WF := initBuffer_wf 128 (by norm_num) (by norm_num)
  refine ⟨hwf, hwf, rfl, rfl, ?_, ?_, ?_, ?_⟩
  · intro n hn; cases hn
  · intro n hn; cases hn
  · simp [boot, main_setup, insertedInto_nil, uartSent_nil, initBuffer_contents]
  · simp [boot, main_setup, insertedInto_nil, usbInSent_nil, System.pending,
      initBuffer_contents]

theorem contents_ne_nil (r : RingBuffer_t) (h : 0 < r.Count) : r.contents ≠ [] := by
  intro hc
  have := contents_length r
  rw [hc] at this
  simp at this
  omega

theorem contents_tail (r : RingBuffer_t) (hwf : r.WF) (hpos : 0 < r.Count) :
    r.contents.tail = (RingBuffer_Remove r).2.contents := by
  have h := remove_contents r hwf hpos
  rw [h, List.tail_cons]

theorem contents_head (r : RingBuffer_t) (hwf : r.WF) (hpos : 0 < r.Count) :
    r.contents = r.Data r.Out :: r.contents.tail := by
  rw [contents_tail r hwf hpos, ← remove_fst]
  exact remove_contents r hwf hpos

theorem mainStep_inv (f : Firmware) (i : MainInput) (s : System) (h : SysInv s) :
    SysInv (mainStep f i s) := by
  obtain ⟨m, pc, running⟩ := s
  obtain ⟨h1, h2, h3, h4, h5, h6, h7, h8⟩ := h
  simp only at h1 h2 h3 h4 h5 h6 h7
  cases pc with
  | readFromHost =>
    simp only [System.pending] at h8
    simp only [mainStep, readFromHost_eq]
    split_ifs with hfull hneg
    · exact ⟨h1, h2, h3, h4, (by intro n hn; cases hn), (by intro n hn; cases hn), h7, h8⟩
    · refine ⟨h1, h2, h3, h4, (by intro n hn; cases hn), (by intro n hn; cases hn), ?_, ?_⟩
      · simpa [insertedInto_append, uartSent_append, insertedInto_cons, uartSent_cons, insertedInto_nil, uartSent_nil] using h7
      · simpa [insertedInto_append, usbInSent_append, insertedInto_cons, usbInSent_cons,
          insertedInto_nil, usbInSent_nil, System.pending]
          using h8
    · have hroom : m.USBtoUSART_Buffer.Count < m.USBtoUSART_Buffer.Size :=
        Nat.lt_of_le_of_ne h1.count_le hfull
      refine ⟨insert_wf _ _ h1 hroom, h2, h3, h4, (by intro n hn; cases hn),
        (by intro n hn; cases hn), ?_, ?_⟩
      · simp only [insert_contents _ _ h1 hroom]
        simp [insertedInto_append, uartSent_append, insertedInto_cons, uartSent_cons, insertedInto_nil, uartSent_nil, h7]
      · simpa [insertedInto_append, usbInSent_append, insertedInto_cons, usbInSent_cons,
          insertedInto_nil, usbInSent_nil, System.pending]
          using h8
  | sendBegin =>
    simp only [System.pending] at h8
    simp only [mainStep, sendBegin_eq]
    split_ifs with h0 hready
    · exact ⟨h1, h2, h3, h4, (by intro n hn; cases hn), (by intro n hn; cases hn), h7, h8⟩
    · refine ⟨h1, h2, h3, h4, ?_, (by intro n hn; cases hn), ?_, ?_⟩
      · intro n hn
        cases hn
        exact Nat.min_le_left _ _
      · simpa [insertedInto_append, uartSent_append, insertedInto_cons, uartSent_cons, insertedInto_nil, uartSent_nil] using h7
      · simpa [insertedInto_append, usbInSent_append, insertedInto_cons, usbInSent_cons,
          insertedInto_nil, usbInSent_nil, System.pending]
          using h8
    · refine ⟨h1, h2, h3, h4, (by intro n hn; cases hn), (by intro n hn; cases hn), ?_, ?_⟩
      · simpa [insertedInto_append, uartSent_append, insertedInto_cons, uartSent_cons, insertedInto_nil, uartSent_nil] using h7
      · simpa [insertedInto_append, usbInSent_append, insertedInto_cons, usbInSent_cons,
          insertedInto_nil, usbInSent_nil, System.pending]
          using h8
  | sendTest n =>
    simp only [System.pending] at h8
    have hn := h5 n rfl
    cases n with
    | zero =>
      exact ⟨h1, h2, h3, h4, (by intro n hn; cases hn), (by intro n hn; cases hn), h7, h8⟩
    | succ k =>
      have hpos : 0 < m.USARTtoUSB_Buffer.Count := by omega
      simp only [mainStep, sendAttempt_eq]
      by_cases hr : i.SendResult = ENDPOINT_READYWAIT_NoError
      · simp only [hr, decide_True]
        refine ⟨h1, h2, h3, h4, (by intro n hn; cases hn), ?_, ?_, ?_⟩
        · intro n hn
          cases hn
          exact hn
        · simpa [insertedInto_append, uartSent_append, insertedInto_cons, uartSent_cons, insertedInto_nil, uartSent_nil] using h7
        · rw [contents_head _ h2 hpos] at h8
          simpa [insertedInto_append, usbInSent_append, insertedInto_cons, usbInSent_cons,
          insertedInto_nil, usbInSent_nil, System.pending]
            using h8
      · simp only [hr, decide_False]
        refine ⟨h1, h2, h3, h4, (by intro n hn; cases hn), (by intro n hn; cases hn), ?_, ?_⟩
        · simpa [insertedInto_append, uartSent_append, insertedInto_cons, uartSent_cons, insertedInto_nil, uartSent_nil] using h7
        · simpa [insertedInto_append, usbInSent_append, insertedInto_cons, usbInSent_cons,
            insertedInto_nil, usbInSent_nil, System.pending, hr] using h8
  | dequeue n =>
    simp only [System.pending] at h8
    have hn := h6 n rfl
    have hpos : 0 < m.USARTtoUSB_Buffer.Count := by omega
    simp only [mainStep, dequeueSent_eq]
    refine ⟨h1, remove_wf _ h2 hpos, h3, h4, ?_, (by intro n hn; cases hn), ?_, ?_⟩
    · intro k hk
      cases hk
      simp only [remove_count _ h2 hpos]
      omega
    · simpa [insertedInto_append, uartSent_append, insertedInto_cons, uartSent_cons, insertedInto_nil, uartSent_nil] using h7
    · rw [contents_tail _ h2 hpos] at h8
      simpa [insertedInto_append, usbInSent_append, insertedInto_cons, usbInSent_cons,
          insertedInto_nil, usbInSent_nil, System.pending]
        using h8
  | loadUART =>
    simp only [System.pending] at h8
    simp only [mainStep, loadUART_eq]
    split_ifs with hgo
    · have hpos : 0 < m.USBtoUSART_Buffer.Count := Nat.pos_of_ne_zero hgo.2
      refine ⟨remove_wf _ h1 hpos, h2, h3, h4, (by intro n hn; cases hn),
        (by intro n hn; cases hn), ?_, ?_⟩
      · rw [contents_head _ h1 hpos, contents_tail _ h1 hpos] at h7
        simpa [insertedInto_append, uartSent_append, insertedInto_cons, uartSent_cons, insertedInto_nil, uartSent_nil] using h7
      · simpa [insertedInto_append, usbInSent_append, insertedInto_cons, usbInSent_cons,
          insertedInto_nil, usbInSent_nil, System.pending]
          using h8
    · refine ⟨h1, h2, h3, h4, (by intro n hn; cases hn), (by intro n hn; cases hn), ?_, ?_⟩
      · simpa [insertedInto_append, uartSent_append, insertedInto_cons, uartSent_cons, insertedInto_nil, uartSent_nil] using h7
      · simpa [insertedInto_append, usbInSent_append, insertedInto_cons, usbInSent_cons,
          insertedInto_nil, usbInSent_nil, System.pending]
          using h8
  | usbTasks =>
    simp only [System.pending] at h8
    simp only [mainStep, main_usbTasks, Machine.call]
    refine ⟨h1, h2, h3, h4, (by intro n hn; cases hn), (by intro n hn; cases hn), ?_, ?_⟩
    · simpa [insertedInto_append, uartSent_append, insertedInto_cons, uartSent_cons, insertedInto_nil, uartSent_nil] using h7
    · simpa [insertedInto_append, usbInSent_append, insertedInto_cons, usbInSent_cons,
          insertedInto_nil, usbInSent_nil, System.pending]
        using h8

theorem isr_inv (UDR1 st : Nat) (s : System) (h : SysInv s) :
    SysInv { s with m := USART1_RX_vect UDR1 st s.m } := by
  obtain ⟨m, pc, running⟩ := s
  obtain ⟨h1, h2, h3, h4, h5, h6, h7, h8⟩ := h
  simp only at h1 h2 h3 h4 h5 h6 h7
  simp only [USART1_RX_vect_eq]
  split_ifs with hgo
  · have hroom : m.USARTtoUSB_Buffer.Count < m.USARTtoUSB_Buffer.Size :=
      Nat.lt_of_le_of_ne h2.count_le hgo.2
    have hc := insert_count _ (UDR1 % 256) h2 hroom
    refine ⟨h1, insert_wf _ _ h2 hroom, h3, h4, ?_, ?_, ?_, ?_⟩
    · intro n hn
      have := h5 n hn
      simp only [hc]
      omega
    · intro n hn
      have := h6 n hn
      simp only [hc]
      omega
    · simpa [insertedInto_append, uartSent_append, insertedInto_cons, uartSent_cons,
        insertedInto_nil, uartSent_nil] using h7
    · cases pc with
      | dequeue n =>
        have hpos : 0 < m.USARTtoUSB_Buffer.Count := by have := h6 n rfl; omega
        have hne := contents_ne_nil _ hpos
        simp only [System.pending] at h8 ⊢
        rw [insert_contents _ _ h2 hroom, List.tail_append_of_ne_nil hne]
        simp [insertedInto_append, usbInSent_append, insertedInto_cons, usbInSent_cons,
          insertedInto_nil, usbInSent_nil, h8]
      | _ =>
        simp only [System.pending] at h8 ⊢
        simp only [insert_contents _ _ h2 hroom]
        simp [insertedInto_append, usbInSent_append, insertedInto_cons, usbInSent_cons,
          insertedInto_nil, usbInSent_nil, h8]
  · exact ⟨h1, h2, h3, h4, h5, h6, h7, h8⟩

theorem dev_inv (dev : Device) (running : Bool) (s : System) (h : SysInv s) :
    SysInv { s with m := { s.m with dev := dev }, running := running } := by
  obtain ⟨m, pc, r⟩ := s
  obtain ⟨h1, h2, h3, h4, h5, h6, h7, h8⟩ := h
  exact ⟨h1, h2, h3, h4, h5, h6, h7, h8⟩

theorem getDescriptor_inv (z : DescriptorSizes) (wValue wIndex : Nat) (s : System)
    (h : SysInv s) :
    SysInv { s with m := (CALLBACK_USB_GetDescriptor z wValue wIndex s.m).2 } := by
  obtain ⟨m, pc, r⟩ := s
  obtain ⟨h1, h2, h3, h4, h5, h6, h7, h8⟩ := h
  obtain ⟨cs, hcs, c1, c2, _, c4⟩ := getDescriptor_frame z wValue wIndex m
  simp only at h1 h2 h3 h4 h5 h6 h7 ⊢
  rw [hcs]
  refine ⟨h1, h2, h3, h4, h5, h6, ?_, ?_⟩
  · simpa [insertedInto_append, uartSent_append, c2, c4] using h7
  · have h8' : insertedInto .USARTtoUSB_Buffer m.calls =
        usbInSent m.calls ++ System.pending ⟨m, pc, r⟩ := h8
    show insertedInto .USARTtoUSB_Buffer (m.calls ++ cs) =
        usbInSent (m.calls ++ cs) ++ System.pending ⟨m, pc, r⟩
    simp [insertedInto_append, usbInSent_append, c1, c4, h8']

theorem step_inv (f : Firmware) (s : System) (e : Event) (h : SysInv s) :
    SysInv (step f s e) := by
  unfold step
  split_ifs
  · cases e with
    | main i => exact mainStep_inv f i s h
    | USART1_RX UDR1 st => exact isr_inv UDR1 st s h
    | ControlRequest req =>
      simp only []
      split
      · exact dev_inv _ s.running s h
      · exact dev_inv _ false s h
    | GetDescriptor wValue wIndex => exact getDescriptor_inv f.sizes wValue wIndex s h
  · exact h

theorem run_inv (f : Firmware) (events : List Event) :
    ∀ s : System, SysInv s → SysInv (run f s events) := by
  induction events with
  | nil => intro s h; exact h
  | cons e es ih => intro s h; exact ih _ (step_inv f s e h)

/-! ## Lemmas on the mode state -/

/-- A request that is not an Enable/Disable request returns, and only adds calls to the trace
that neither write the EEPROM nor belong to the reset sequence. -/
theorem nonEnable_frame (c : Selectors) (req : USB_Request_Header) (s : Device)
    (hne : ¬ isEnableRequest c req) :
    ∃ t : List Effect,
      EVENT_USB_Device_ControlRequest c req s = .returned { s with trace := s.trace ++ t } ∧
      t.all (fun e => !e.persistsOrResets) = true := by
  unfold isEnableRequest at hne
  unfold EVENT_USB_Device_ControlRequest deviceToHostVendor hostToDeviceVendor
    setAltEnumerationSwitch
  simp only [devicetohost_vendor_device, hosttodevice_vendor_device]
  split_ifs <;>
    first
      | exact absurd ⟨‹_›, ‹_›, ‹_›⟩ hne
      | (simp only [Endpoint_ClearSETUP, Endpoint_Write_Control_PStream_LE,
           Endpoint_ClearStatusStage, Endpoint_StallTransaction,
           CDC_Device_ProcessControlRequest, Device.emit, List.append_assoc,
           List.singleton_append, List.cons_append, List.nil_append]
         exact ⟨_, rfl, rfl⟩)

/-! ## The send loop -/

/-- The send loop, run on `BytesToSend ≤ Count`: it makes at most `BytesToSend` calls of
`CDC_Device_SendByte`; with `j` the number of bytes sent with success, these are the `j` oldest
bytes in order, exactly they have left the buffer, and `j = BytesToSend` when no call fails. -/
theorem sendLoop_spec (results : Nat → Nat) :
    ∀ (n k : Nat) (m : Machine), m.USARTtoUSB_Buffer.WF → n ≤ m.USARTtoUSB_Buffer.Count →
      ∃ (j : Nat) (new : List Call),
        j ≤ n ∧
        (main_sendLoop results n k m).calls = m.calls ++ new ∧
        (sendByteCalls new).length ≤ n ∧
        usbInSent new = m.USARTtoUSB_Buffer.contents.take j ∧
        (main_sendLoop results n k m).USARTtoUSB_Buffer.contents =
          m.USARTtoUSB_Buffer.contents.drop j ∧
        (main_sendLoop results n k m).USARTtoUSB_Buffer.Count = m.USARTtoUSB_Buffer.Count - j ∧
        ((∀ i, i < n → results (k + i) = ENDPOINT_READYWAIT_NoError) →
          j = n ∧ (sendByteCalls new).length = n) := by
  intro n
  induction n with
  | zero =>
    intro k m _ _
    exact ⟨0, [], Nat.le_refl _, by simp [main_sendLoop], by simp [sendByteCalls_nil],
      by simp [usbInSent_nil], by simp [main_sendLoop], by simp [main_sendLoop],
      fun _ => ⟨rfl, by simp [sendByteCalls_nil]⟩⟩
  | succ n ih =>
    intro k m hwf hle
    have hpos : 0 < m.USARTtoUSB_Buffer.Count := by omega
    by_cases hr : results k = ENDPOINT_READYWAIT_NoError
    · have hstep : main_sendLoop results (n + 1) k m =
          main_sendLoop results n (k + 1)
            (main_dequeueSent
              { m with
                calls := m.calls ++
                  [.CDC_Device_SendByte (m.USARTtoUSB_Buffer.Data m.USARTtoUSB_Buffer.Out)
                    (results k)] }) := by
        simp [main_sendLoop, sendAttempt_eq, hr]
      rw [hstep, dequeueSent_eq]
      have hcnt := remove_count _ hwf hpos
      obtain ⟨j, new, hj, hcalls, hlen, hsent, hcont, hcount, hall⟩ :=
        ih (k + 1)
          { m with
            calls := m.calls ++
              [.CDC_Device_SendByte (m.USARTtoUSB_Buffer.Data m.USARTtoUSB_Buffer.Out)
                (results k)] ++
              [.RingBuffer_Remove .USARTtoUSB_Buffer
                (m.USARTtoUSB_Buffer.Data m.USARTtoUSB_Buffer.Out)]
            USARTtoUSB_Buffer := (RingBuffer_Remove m.USARTtoUSB_Buffer).2 }
          (remove_wf _ hwf hpos) (by simp only [hcnt]; omega)
      simp only at hcalls hsent hcont hcount
      refine ⟨j + 1,
        [.CDC_Device_SendByte (m.USARTtoUSB_Buffer.Data m.USARTtoUSB_Buffer.Out) (results k),
          .RingBuffer_Remove .USARTtoUSB_Buffer
            (m.USARTtoUSB_Buffer.Data m.USARTtoUSB_Buffer.Out)] ++ new,
        by omega, ?_, ?_, ?_, ?_, ?_, ?_⟩
      · rw [hcalls]; simp
      · simp only [sendByteCalls_append, sendByteCalls_cons, sendByteCalls_nil,
          List.length_append, List.length_cons, List.length_nil, List.append_nil,
          List.nil_append]
        omega
      · rw [contents_head _ hwf hpos, contents_tail _ hwf hpos]
        simp [usbInSent_append, usbInSent_cons, usbInSent_nil, hr, hsent]
      · rw [hcont, contents_head _ hwf hpos, contents_tail _ hwf hpos]
        simp
      · rw [hcount, hcnt]; omega
      · intro hok
        have h' := hall (fun i hi => by
          have := hok (i + 1) (by omega)
          rwa [show k + (i + 1) = k + 1 + i by omega] at this)
        refine ⟨by omega, ?_⟩
        simp only [sendByteCalls_append, sendByteCalls_cons, sendByteCalls_nil,
          List.length_append, List.length_cons, List.length_nil, List.append_nil,
          List.nil_append]
        omega
    · have hstep : main_sendLoop results (n + 1) k m =
          { m with
            calls := m.calls ++
              [.CDC_Device_SendByte (m.USARTtoUSB_Buffer.Data m.USARTtoUSB_Buffer.Out)
                (results k)] } := by
        simp [main_sendLoop, sendAttempt_eq, hr]
      rw [hstep]
      refine ⟨0, _, Nat.zero_le _, rfl, ?_, ?_, ?_, ?_, ?_⟩
      · simp [sendByteCalls_cons, sendByteCalls_nil]
      · simp [usbInSent_cons, usbInSent_nil, hr]
      · simp
      · simp
      · intro hok
        exact absurd (hok 0 (by omega)) hr

/-- The send loop touches nothing but the call log and `USARTtoUSB_Buffer`. -/
theorem sendLoop_frame (results : Nat → Nat) :
    ∀ (n k : Nat) (m : Machine),
      (main_sendLoop results n k m).dev = m.dev ∧
      (main_sendLoop results n k m).USBtoUSART_Buffer = m.USBtoUSART_Buffer := by
  intro n
  induction n with
  | zero => intro k m; simp [main_sendLoop]
  | succ n ih =>
    intro k m
    by_cases hr : results k = ENDPOINT_READYWAIT_NoError
    · have h := ih (k + 1)
        (main_dequeueSent
          { m with
            calls := m.calls ++
              [.CDC_Device_SendByte (m.USARTtoUSB_Buffer.Data m.USARTtoUSB_Buffer.Out)
                (results k)] })
      have hstep : main_sendLoop results (n + 1) k m =
          main_sendLoop results n (k + 1)
            (main_dequeueSent
              { m with
                calls := m.calls ++
                  [.CDC_Device_SendByte (m.USARTtoUSB_Buffer.Data m.USARTtoUSB_Buffer.Out)
                    (results k)] }) := by
        simp [main_sendLoop, sendAttempt_eq, hr]
      rw [hstep, h.1, h.2, dequeueSent_eq]
      exact ⟨rfl, rfl⟩
    · simp [main_sendLoop, sendAttempt_eq, hr]

/-- The USB IN step as a whole, run without interruption: with `j` the number of bytes sent
with success, `j ≤ min Count 63`, at most `min Count 63` calls of `CDC_Device_SendByte` are
made, the bytes sent are the `j` oldest in order and exactly they have left the buffer; `j =
min Count 63` when the endpoint is ready and no call fails, and nothing is sent or removed when
the endpoint is not ready. -/
theorem sendToHost_spec (p : Nat) (ready : Bool) (results : Nat → Nat) (m : Machine)
    (hwf : m.USARTtoUSB_Buffer.WF) :
    ∃ (j : Nat) (new : List Call),
      j ≤ min m.USARTtoUSB_Buffer.Count 63 ∧
      (main_sendToHost p ready results m).calls = m.calls ++ new ∧
      (sendByteCalls new).length ≤ min m.USARTtoUSB_Buffer.Count 63 ∧
      usbInSent new = m.USARTtoUSB_Buffer.contents.take j ∧
      (main_sendToHost p ready results m).USARTtoUSB_Buffer.contents =
        m.USARTtoUSB_Buffer.contents.drop j ∧
      (main_sendToHost p ready results m).USARTtoUSB_Buffer.Count =
        m.USARTtoUSB_Buffer.Count - j ∧
      (ready = true → (∀ k, results k = ENDPOINT_READYWAIT_NoError) →
        j = min m.USARTtoUSB_Buffer.Count 63 ∧
        (sendByteCalls new).length = min m.USARTtoUSB_Buffer.Count 63) ∧
      (ready = false → sendByteCalls new = [] ∧
        (main_sendToHost p ready results m).USARTtoUSB_Buffer = m.USARTtoUSB_Buffer) := by
  unfold main_sendToHost
  rw [sendBegin_eq]
  by_cases h0 : m.USARTtoUSB_Buffer.Count = 0
  · rw [if_pos h0]
    dsimp only
    refine ⟨0, [], Nat.zero_le _, by simp, by simp [sendByteCalls_nil], by simp [usbInSent_nil],
      by simp, by simp, fun _ _ => ⟨by simp [h0], by simp [sendByteCalls_nil, h0]⟩,
      fun _ => ⟨rfl, rfl⟩⟩
  · rw [if_neg h0]
    cases ready with
    | false =>
      rw [if_neg (by simp)]
      dsimp only
      refine ⟨0, _, Nat.zero_le _, rfl, by simp [sendByteCalls_cons, sendByteCalls_nil],
        by simp [usbInSent_cons, usbInSent_nil], by simp, by simp,
        fun h => absurd h (by simp),
        fun _ => ⟨by simp [sendByteCalls_cons, sendByteCalls_nil], rfl⟩⟩
    | true =>
      rw [if_pos rfl]
      dsimp only
      obtain ⟨j, new, hj, hcalls, hlen, hsent, hcont, hcount, hall⟩ :=
        sendLoop_spec results (min m.USARTtoUSB_Buffer.Count 63) 0
          { m with
            calls := m.calls ++
              [.Endpoint_SelectEndpoint CDC_TX_EPADDR, .Endpoint_IsINReady true,
                .LEDs_TurnOnLEDs_LEDMASK_TX]
            TxLEDPulseTimer := p }
          hwf (Nat.min_le_left _ _)
      simp only at hcalls hsent hcont hcount
      refine ⟨j,
        [.Endpoint_SelectEndpoint CDC_TX_EPADDR, .Endpoint_IsINReady true,
          .LEDs_TurnOnLEDs_LEDMASK_TX] ++ new, hj, ?_, ?_, ?_, hcont, hcount, ?_, ?_⟩
      · rw [hcalls]; simp
      · simpa [sendByteCalls_append, sendByteCalls_cons, sendByteCalls_nil] using hlen
      · simpa [usbInSent_append, usbInSent_cons, usbInSent_nil] using hsent
      · intro _ hok
        have h' := hall (fun i _ => by simpa using hok (0 + i))
        exact ⟨h'.1, by
          simpa [sendByteCalls_append, sendByteCalls_cons, sendByteCalls_nil] using h'.2⟩
      · intro h; exact absurd h (by simp)

/-! ## Frame lemmas for the mode state -/

theorem readFromHost_dev (rb : Int) (m : Machine) : (main_readFromHost rb m).dev = m.dev := by
  rw [readFromHost_eq]; split_ifs <;> rfl

theorem sendBegin_dev (p : Nat) (ready : Bool) (m : Machine) :
    (main_sendBegin p ready m).1.dev = m.dev := by
  rw [sendBegin_eq]; split_ifs <;> rfl

theorem sendToHost_dev (p : Nat) (ready : Bool) (results : Nat → Nat) (m : Machine) :
    (main_sendToHost p ready results m).dev = m.dev := by
  unfold main_sendToHost
  rw [sendBegin_eq]
  split_ifs <;> simp only [(sendLoop_frame results _ _ _).1]

theorem loadUART_dev (p : Nat) (ready : Bool) (m : Machine) :
    (main_loadUART p ready m).dev = m.dev := by
  rw [loadUART_eq]; split_ifs <;> rfl

theorem main_loop_dev (p : Nat) (i : PollInput) (m : Machine) : (main_loop p i m).dev = m.dev := by
  simp only [main_loop, main_usbTasks, Machine.call, loadUART_dev, sendToHost_dev,
    readFromHost_dev]

theorem mainStep_dev (f : Firmware) (i : MainInput) (s : System) :
    (mainStep f i s).m.dev = s.m.dev ∧ (mainStep f i s).running = s.running := by
  obtain ⟨m, pc, running⟩ := s
  cases pc with
  | readFromHost => exact ⟨readFromHost_dev _ _, rfl⟩
  | sendBegin =>
    simp only [mainStep, sendBegin_eq]
    split_ifs <;> exact ⟨rfl, rfl⟩
  | sendTest n =>
    cases n with
    | zero => exact ⟨rfl, rfl⟩
    | succ k =>
      simp only [mainStep, sendAttempt_eq]
      by_cases hr : i.SendResult = ENDPOINT_READYWAIT_NoError <;> simp [hr]
  | dequeue n => exact ⟨rfl, rfl⟩
  | loadUART => exact ⟨loadUART_dev _ _ _, rfl⟩
  | usbTasks => exact ⟨rfl, rfl⟩

theorem USART1_RX_vect_dev (UDR1 st : Nat) (m : Machine) :
    (USART1_RX_vect UDR1 st m).dev = m.dev := by
  rw [USART1_RX_vect_eq]; split_ifs <;> rfl

theorem getDescriptor_dev (z : DescriptorSizes) (wValue wIndex : Nat) (m : Machine) :
    (CALLBACK_USB_GetDescriptor z wValue wIndex m).2.dev = m.dev := by
  obtain ⟨cs, hcs, _⟩ := getDescriptor_frame z wValue wIndex m
  rw [hcs]

/-- The dispatcher keeps the live flag equal to bit 0 of the persisted byte, whether it
returns or not. -/
theorem controlRequest_consistent (c : Selectors) (req : USB_Request_Header) (d : Device)
    (h : d.consistent) : (EVENT_USB_Device_ControlRequest c req d).state.consistent := by
  by_cases he : isEnableRequest c req
  · obtain ⟨hty, hreq, hidx⟩ := he
    by_cases hv : d.WebUSB_Enabled = req.wValue
    · rw [enable_not_taken c req d hty hreq hidx hv]
      exact h
    · rw [enable_taken c req d hty hreq hidx hv]
      simp [Outcome.state, Device.consistent, Nat.and_one_is_mod]
  · obtain ⟨t, ht, _⟩ := nonEnable_frame c req d he
    rw [ht]
    exact h

theorem step_consistent (f : Firmware) (s : System) (e : Event) (h : s.m.dev.consistent) :
    (step f s e).m.dev.consistent := by
  unfold step
  split_ifs
  · cases e with
    | main i => simp only []; rw [(mainStep_dev f i s).1]; exact h
    | USART1_RX UDR1 st => simp only []; rw [USART1_RX_vect_dev]; exact h
    | ControlRequest req =>
      have hc := controlRequest_consistent f.sel req s.m.dev h
      simp only []
      split
      · next dev heq => rw [heq] at hc; exact hc
      · next dev heq => rw [heq] at hc; exact hc
    | GetDescriptor wValue wIndex => simp only []; rw [getDescriptor_dev]; exact h
  · exact h

theorem run_consistent (f : Firmware) (events : List Event) :
    ∀ s : System, s.m.dev.consistent → (run f s events).m.dev.consistent := by
  induction events with
  | nil => intro s h; exact h
  | cons e es ih => intro s h; exact ih _ (step_consistent f s e h)

theorem main_setup_enabled (eeprom : Nat → Nat) :
    (main_setup eeprom).dev.WebUSB_Enabled = eeprom WEBUSB_ENABLE_BYTE_ADDRESS % 2 := by
  simp only [main_setup, eeprom_read_byte, Nat.and_one_is_mod]
  omega

/-! ## Round trip through a ring buffer -/

theorem insertAll_spec (bytes : List Nat) :
    ∀ r : RingBuffer_t, r.WF → r.Count + bytes.length ≤ r.Size →
      (insertAll r bytes).WF ∧ (insertAll r bytes).contents = r.contents ++ bytes ∧
      (insertAll r bytes).Count = r.Count + bytes.length := by
  induction bytes with
  | nil => intro r hwf _; simp [insertAll, hwf]
  | cons b bs ih =>
    intro r hwf hle
    simp only [List.length_cons] at hle
    have hroom : r.Count < r.Size := by omega
    have hc := insert_count r b hwf hroom
    have hs : (RingBuffer_Insert r b).Size = r.Size := rfl
    obtain ⟨h1, h2, h3⟩ := ih (RingBuffer_Insert r b) (insert_wf r b hwf hroom) (by omega)
    refine ⟨h1, ?_, ?_⟩
    · show (insertAll (RingBuffer_Insert r b) bs).contents = _
      rw [h2, insert_contents r b hwf hroom]; simp
    · show (insertAll (RingBuffer_Insert r b) bs).Count = _
      rw [h3, hc, List.length_cons]; omega

theorem removeN_spec (n : Nat) :
    ∀ r : RingBuffer_t, r.WF → n ≤ r.Count →
      (removeN n r).1 = r.contents.take n ∧ (removeN n r).2.contents = r.contents.drop n ∧
      (removeN n r).2.Count = r.Count - n := by
  induction n with
  | zero => intro r _ _; simp [removeN]
  | succ n ih =>
    intro r hwf hle
    have hpos : 0 < r.Count := by omega
    have hc := remove_count r hwf hpos
    obtain ⟨h1, h2, h3⟩ := ih (RingBuffer_Remove r).2 (remove_wf r hwf hpos) (by omega)
    have hcont := remove_contents r hwf hpos
    simp only [removeN]
    refine ⟨?_, ?_, ?_⟩
    · rw [h1, hcont]; simp
    · rw [h2, hcont]; simp
    · rw [h3, hc]; omega

/-! ## The serial bridge -/

/-- C11: in the USB IN step of a pass through the loop of `main`, started with `c ≥ 1` bytes
in `USARTtoUSB_Buffer`, `BytesToSend` is `min(c, CDC_TXRX_EPSIZE - 1) = min(c, 63)`, held by
the `uint8_t` without truncation; the send loop ends, having called `CDC_Device_SendByte` at
most `min(c, 63)` times, so at most 63 bytes are handed to the host; and when the endpoint is
ready and no send fails exactly `min(c, 63)` calls are made, which hand over the `min(c, 63)`
oldest bytes in order and leave the rest in the buffer. -/
theorem C11_at_most_63_bytes_per_cycle (p : Nat) (ready : Bool) (results : Nat → Nat)
    (m : Machine) (hwf : m.USARTtoUSB_Buffer.WF) (hc : 1 ≤ m.USARTtoUSB_Buffer.Count) :
    (main_sendBegin p true m).2 = some (min m.USARTtoUSB_Buffer.Count (CDC_TXRX_EPSIZE - 1)) ∧
    min m.USARTtoUSB_Buffer.Count (CDC_TXRX_EPSIZE - 1) ≤ 63 ∧
    ∃ new : List Call,
      (main_sendToHost p ready results m).calls = m.calls ++ new ∧
      (sendByteCalls new).length ≤ min m.USARTtoUSB_Buffer.Count (CDC_TXRX_EPSIZE - 1) ∧
      (usbInSent new).length ≤ 63 ∧
      (ready = true → (∀ k, results k = ENDPOINT_READYWAIT_NoError) →
        (sendByteCalls new).length = min m.USARTtoUSB_Buffer.Count (CDC_TXRX_EPSIZE - 1) ∧
        usbInSent new =
          m.USARTtoUSB_Buffer.contents.take
            (min m.USARTtoUSB_Buffer.Count (CDC_TXRX_EPSIZE - 1)) ∧
        (main_sendToHost p ready results m).USARTtoUSB_Buffer.contents =
          m.USARTtoUSB_Buffer.contents.drop
            (min m.USARTtoUSB_Buffer.Count (CDC_TXRX_EPSIZE - 1))) := by
  have h63 : CDC_TXRX_EPSIZE - 1 = 63 := rfl
  have h0 : m.USARTtoUSB_Buffer.Count ≠ 0 := by omega
  obtain ⟨j, new, hj, hcalls, hlen, hsent, hcont, _, hall, _⟩ :=
    sendToHost_spec p ready results m hwf
  rw [h63]
  refine ⟨by rw [sendBegin_eq]; simp [h0], Nat.min_le_right _ _, new, hcalls, hlen, ?_, ?_⟩
  · rw [hsent, List.length_take]
    omega
  · intro hr hok
    obtain ⟨hjn, hn⟩ := hall hr hok
    rw [← hjn]
    exact ⟨by rw [hn, hjn], hsent, hcont⟩

/-- C11 at the sample state (two bytes waiting, endpoint ready, every send succeeding). -/
theorem C11_at_most_63_bytes_per_cycle_witness :
    1 ≤ sampleSystem.m.USARTtoUSB_Buffer.Count ∧
    (main_sendBegin 3 true sampleSystem.m).2 =
      some (min sampleSystem.m.USARTtoUSB_Buffer.Count (CDC_TXRX_EPSIZE - 1)) ∧
    min sampleSystem.m.USARTtoUSB_Buffer.Count (CDC_TXRX_EPSIZE - 1) ≤ 63 ∧
    ∃ new : List Call,
      (main_sendToHost 3 true (fun _ => 0) sampleSystem.m).calls =
        sampleSystem.m.calls ++ new ∧
      (sendByteCalls new).length ≤
        min sampleSystem.m.USARTtoUSB_Buffer.Count (CDC_TXRX_EPSIZE - 1) ∧
      (usbInSent new).length ≤ 63 ∧
      (true = true → (∀ k : Nat, (fun _ => 0) k = ENDPOINT_READYWAIT_NoError) →
        (sendByteCalls new).length =
          min sampleSystem.m.USARTtoUSB_Buffer.Count (CDC_TXRX_EPSIZE - 1) ∧
        usbInSent new =
          sampleSystem.m.USARTtoUSB_Buffer.contents.take
            (min sampleSystem.m.USARTtoUSB_Buffer.Count (CDC_TXRX_EPSIZE - 1)) ∧
        (main_sendToHost 3 true (fun _ => 0) sampleSystem.m).USARTtoUSB_Buffer.contents =
          sampleSystem.m.USARTtoUSB_Buffer.contents.drop
            (min sampleSystem.m.USARTtoUSB_Buffer.Count (CDC_TXRX_EPSIZE - 1))) :=
  ⟨by decide,
    C11_at_most_63_bytes_per_cycle 3 true (fun _ => 0) sampleSystem.m
      (run_inv sampleFirmware _ _ (boot_inv _)).wf_in (by decide)⟩

/-- C12: in the USB IN step, when `CDC_Device_SendByte` returns anything other than
`ENDPOINT_READYWAIT_NoError` for the peeked byte, the loop is left at once: the machine after
the failed attempt is the machine before it with that one call recorded, so
`USARTtoUSB_Buffer` (count and contents) is as before and no further send is attempted; the
same holds statement by statement (`main` moves on to line 173).  When the IN endpoint is not
ready, the buffer is unchanged and no send is attempted.  In every case the bytes sent with
success followed by the bytes left in the buffer are the bytes that were in the buffer. -/
theorem C12_failed_send_keeps_byte (f : Firmware) (p : Nat) (ready : Bool)
    (results : Nat → Nat) (n k : Nat) (i : MainInput) (running : Bool) (m : Machine)
    (hwf : m.USARTtoUSB_Buffer.WF)
    (hfail : results k ≠ ENDPOINT_READYWAIT_NoError)
    (hfail2 : i.SendResult ≠ ENDPOINT_READYWAIT_NoError) :
    main_sendLoop results (n + 1) k m =
      m.call (.CDC_Device_SendByte (RingBuffer_Peek m.USARTtoUSB_Buffer) (results k)) ∧
    (main_sendLoop results (n + 1) k m).USARTtoUSB_Buffer = m.USARTtoUSB_Buffer ∧
    mainStep f i { m := m, pc := .sendTest (n + 1), running := running } =
      { m := m.call (.CDC_Device_SendByte (RingBuffer_Peek m.USARTtoUSB_Buffer) i.SendResult),
        pc := .loadUART, running := running } ∧
    (main_sendToHost p false results m).USARTtoUSB_Buffer = m.USARTtoUSB_Buffer ∧
    sendByteCalls (main_sendToHost p false results m).calls = sendByteCalls m.calls ∧
    ∃ new : List Call,
      (main_sendToHost p ready results m).calls = m.calls ++ new ∧
      usbInSent new ++ (main_sendToHost p ready results m).USARTtoUSB_Buffer.contents =
        m.USARTtoUSB_Buffer.contents := by
  have hloop : main_sendLoop results (n + 1) k m =
      m.call (.CDC_Device_SendByte (RingBuffer_Peek m.USARTtoUSB_Buffer) (results k)) := by
    simp [main_sendLoop, sendAttempt_eq, hfail, Machine.call, RingBuffer_Peek]
  obtain ⟨_, new0, _, hcalls0, _, _, _, _, _, hnot⟩ := sendToHost_spec p false results m hwf
  obtain ⟨j, new, _, hcalls, _, hsent, hcont, _, _, _⟩ := sendToHost_spec p ready results m hwf
  refine ⟨hloop, by rw [hloop]; rfl, ?_, (hnot rfl).2, ?_, new, hcalls, ?_⟩
  · simp [mainStep, sendAttempt_eq, hfail2, Machine.call, RingBuffer_Peek]
  · rw [hcalls0, sendByteCalls_append, (hnot rfl).1, List.append_nil]
  · rw [hsent, hcont, List.take_append_drop]

/-- C12 at the sample state, with the first send failing with error code 1. -/
theorem C12_failed_send_keeps_byte_witness :
    (main_sendLoop (fun _ => 1) 2 0 sampleSystem.m).USARTtoUSB_Buffer.contents = [0x41, 0x42] ∧
    sendByteCalls (main_sendLoop (fun _ => 1) 2 0 sampleSystem.m).calls = [1] ∧
    (main_sendToHost 3 false (fun _ => 1) sampleSystem.m).USARTtoUSB_Buffer.contents =
      [0x41, 0x42] := by
  obtain ⟨h1, _, _, h4, _, _⟩ :=
    C12_failed_send_keeps_byte sampleFirmware 3 true (fun _ => 1) 1 0
      { ReceivedByte := 0, INReady := true, SendResult := 1, SendReady := true } true
      sampleSystem.m (run_inv sampleFirmware _ _ (boot_inv _)).wf_in (by decide) (by decide)
  rw [h1, h4]
  decide

/-- C13: FIFO order.  After any sequence of `main` statements, UART receive interrupts, control
requests and descriptor lookups, interleaved in any way from boot (both buffers empty), the
bytes handed to the USB IN endpoint with success are a prefix of the bytes the interrupt
inserted into `USARTtoUSB_Buffer`, and the bytes handed to the UART are a prefix of the bytes
inserted into `USBtoUSART_Buffer`; and inserting `N ≤ 128` bytes into an empty buffer of
capacity 128 and then removing `N` bytes gives back the same bytes in the same order. -/
theorem C13_fifo_order (f : Firmware) (eeprom : Nat → Nat) (events : List Event)
    (bytes : List Nat) (hN : bytes.length ≤ 128) :
    usbInSent (run f (boot eeprom) events).m.calls <+:
      insertedInto .USARTtoUSB_Buffer (run f (boot eeprom) events).m.calls ∧
    uartSent (run f (boot eeprom) events).m.calls <+:
      insertedInto .USBtoUSART_Buffer (run f (boot eeprom) events).m.calls ∧
    (removeN bytes.length (insertAll (RingBuffer_InitBuffer 128) bytes)).1 = bytes := by
  have hinv := run_inv f events (boot eeprom) (boot_inv eeprom)
  have hwf : (RingBuffer_InitBuffer 128).WF := initBuffer_wf 128 (by norm_num) (by norm_num)
  refine ⟨?_, ?_, ?_⟩
  · rw [hinv.fifo_in]; exact List.prefix_append _ _
  · rw [hinv.fifo_out]; exact List.prefix_append _ _
  · obtain ⟨h1, h2, h3⟩ := insertAll_spec bytes (RingBuffer_InitBuffer 128) hwf
      (by simpa [RingBuffer_InitBuffer] using hN)
    obtain ⟨h4, _, _⟩ := removeN_spec bytes.length _ h1
      (by rw [h3]; simp [RingBuffer_InitBuffer])
    rw [h4, h2, initBuffer_contents, List.nil_append, List.take_length]

/-- C13 on a run in which an interrupt comes in between a send and its dequeue, and on the
round trip of three bytes. -/
theorem C13_fifo_order_witness :
    usbInSent (run sampleFirmware (boot fun _ => 0)
      [.USART1_RX 5 4, .USART1_RX 6 4,
        .main { ReceivedByte := 7, INReady := true, SendResult := 0, SendReady := true },
        .main { ReceivedByte := 7, INReady := true, SendResult := 0, SendReady := true },
        .main { ReceivedByte := 7, INReady := true, SendResult := 0, SendReady := true },
        .USART1_RX 9 4]).m.calls <+:
      insertedInto .USARTtoUSB_Buffer (run sampleFirmware (boot fun _ => 0)
      [.USART1_RX 5 4, .USART1_RX 6 4,
        .main { ReceivedByte := 7, INReady := true, SendResult := 0, SendReady := true },
        .main { ReceivedByte := 7, INReady := true, SendResult := 0, SendReady := true },
        .main { ReceivedByte := 7, INReady := true, SendResult := 0, SendReady := true },
        .USART1_RX 9 4]).m.calls ∧
    (removeN 3 (insertAll (RingBuffer_InitBuffer 128) [10, 20, 30])).1 = [10, 20, 30] := by
  have h := C13_fifo_order sampleFirmware (fun _ => 0)
    [.USART1_RX 5 4, .USART1_RX 6 4,
      .main { ReceivedByte := 7, INReady := true, SendResult := 0, SendReady := true },
      .main { ReceivedByte := 7, INReady := true, SendResult := 0, SendReady := true },
      .main { ReceivedByte := 7, INReady := true, SendResult := 0, SendReady := true },
      .USART1_RX 9 4] [10, 20, 30] (by decide)
  exact ⟨h.1, h.2.2⟩

/-- C14: in every state reachable from boot by any sequence of `main` statements, UART
receive interrupts, control requests and descriptor lookups, both ring buffers have capacity
128 and a count of at most 128 (the count is a wrapping 16-bit counter, so this also says that
no removal ever took it below zero). -/
theorem C14_count_bound (f : Firmware) (eeprom : Nat → Nat) (events : List Event) :
    (run f (boot eeprom) events).m.USBtoUSART_Buffer.Size = 128 ∧
    (run f (boot eeprom) events).m.USARTtoUSB_Buffer.Size = 128 ∧
    (run f (boot eeprom) events).m.USBtoUSART_Buffer.Count ≤ 128 ∧
    (run f (boot eeprom) events).m.USARTtoUSB_Buffer.Count ≤ 128 := by
  have hinv := run_inv f events (boot eeprom) (boot_inv eeprom)
  have h1 := hinv.wf_out.count_le
  have h2 := hinv.wf_in.count_le
  rw [hinv.size_out] at h1
  rw [hinv.size_in] at h2
  exact ⟨hinv.size_out, hinv.size_in, h1, h2⟩

/-- C15: the UART receive interrupt appends the received byte to `USARTtoUSB_Buffer`, the
count growing by one, exactly when `USB_DeviceState` is `DEVICE_STATE_Configured` and the
buffer is not full; otherwise (buffer full, or device not configured) it changes nothing at
all, and so does any number of further interrupts, with any bytes, in that situation. -/
theorem C15_receive_interrupt (UDR1 st : Nat) (bytes : List Nat) (m : Machine)
    (hwf : m.USARTtoUSB_Buffer.WF) :
    if st = DEVICE_STATE_Configured ∧
        m.USARTtoUSB_Buffer.Count ≠ m.USARTtoUSB_Buffer.Size then
      (USART1_RX_vect UDR1 st m).USARTtoUSB_Buffer.contents =
        m.USARTtoUSB_Buffer.contents ++ [UDR1 % 256] ∧
      (USART1_RX_vect UDR1 st m).USARTtoUSB_Buffer.Count = m.USARTtoUSB_Buffer.Count + 1
    else
      USART1_RX_vect UDR1 st m = m ∧
      bytes.foldl (fun m' b => USART1_RX_vect b st m') m = m := by
  split_ifs with hgo
  · have hroom : m.USARTtoUSB_Buffer.Count < m.USARTtoUSB_Buffer.Size :=
      Nat.lt_of_le_of_ne hwf.count_le hgo.2
    rw [USART1_RX_vect_eq, if_pos hgo]
    exact ⟨insert_contents _ _ hwf hroom, insert_count _ _ hwf hroom⟩
  · have hone : ∀ b, USART1_RX_vect b st m = m := fun b => by
      rw [USART1_RX_vect_eq, if_neg hgo]
    refine ⟨hone UDR1, ?_⟩
    induction bytes with
    | nil => rfl
    | cons b bs ih => rw [List.foldl_cons, hone b]; exact ih

/-- C15 at the sample state: a byte received while configured is appended; a byte received
while the device is only addressed (state 3) is dropped. -/
theorem C15_receive_interrupt_witness :
    (USART1_RX_vect 0x43 4 sampleSystem.m).USARTtoUSB_Buffer.contents = [0x41, 0x42, 0x43] ∧
    (USART1_RX_vect 0x43 4 sampleSystem.m).USARTtoUSB_Buffer.Count = 3 ∧
    [0x43, 0x44].foldl (fun m' b => USART1_RX_vect b 3 m') sampleSystem.m = sampleSystem.m := by
  have h1 := C15_receive_interrupt 0x43 4 [] sampleSystem.m
    (run_inv sampleFirmware _ _ (boot_inv _)).wf_in
  have h2 := C15_receive_interrupt 0x43 3 [0x43, 0x44] sampleSystem.m
    (run_inv sampleFirmware _ _ (boot_inv _)).wf_in
  rw [if_pos (by decide)] at h1
  rw [if_neg (by decide)] at h2
  refine ⟨?_, ?_, h2.2⟩
  · rw [h1.1]; decide
  · rw [h1.2]; decide

/-- C16: step 1 of a pass through the loop of `main`.  If `USBtoUSART_Buffer` is full nothing
happens: `CDC_Device_ReceiveByte` is not called and the machine is unchanged.  If it is not
full `CDC_Device_ReceiveByte` is called exactly once; a negative result changes nothing else,
and a result `b` from 0 to 255 is appended to the buffer as the byte `b`, the count growing by
one. -/
theorem C16_read_from_host (rb : Int) (m : Machine) (hwf : m.USBtoUSART_Buffer.WF)
    (hb : rb < 256) :
    if m.USBtoUSART_Buffer.Count = m.USBtoUSART_Buffer.Size then
      main_readFromHost rb m = m
    else if rb < 0 then
      main_readFromHost rb m = m.call (.CDC_Device_ReceiveByte rb)
    else
      (main_readFromHost rb m).calls =
        m.calls ++
          [.CDC_Device_ReceiveByte rb, .RingBuffer_Insert .USBtoUSART_Buffer rb.toNat] ∧
      (main_readFromHost rb m).USBtoUSART_Buffer.contents =
        m.USBtoUSART_Buffer.contents ++ [rb.toNat] ∧
      (main_readFromHost rb m).USBtoUSART_Buffer.Count = m.USBtoUSART_Buffer.Count + 1 := by
  rw [readFromHost_eq]
  split_ifs with hfull hneg
  · rfl
  · rfl
  · have hroom : m.USBtoUSART_Buffer.Count < m.USBtoUSART_Buffer.Size :=
      Nat.lt_of_le_of_ne hwf.count_le hfull
    have hmod : (rb % 256).toNat = rb.toNat := by
      rw [Int.emod_eq_of_lt (by omega) hb]
    rw [hmod]
    exact ⟨rfl, insert_contents _ _ hwf hroom, insert_count _ _ hwf hroom⟩

/-- C16 at the sample state (one byte stored, so not full): the byte `0x62` read from the host
is appended, and a result of `-1` leaves the buffer as it was. -/
theorem C16_read_from_host_witness :
    (main_readFromHost 0x62 sampleSystem.m).USBtoUSART_Buffer.contents = [0x61, 0x62] ∧
    (main_readFromHost (-1) sampleSystem.m).USBtoUSART_Buffer.contents = [0x61] := by
  have h1 := C16_read_from_host 0x62 sampleSystem.m
    (run_inv sampleFirmware _ _ (boot_inv _)).wf_out (by decide)
  have h2 := C16_read_from_host (-1) sampleSystem.m
    (run_inv sampleFirmware _ _ (boot_inv _)).wf_out (by decide)
  rw [if_neg (by decide), if_neg (by decide)] at h1
  rw [if_neg (by decide), if_pos (by decide)] at h2
  refine ⟨?_, ?_⟩
  · rw [h1.2.1]; decide
  · rw [h2]; decide

/-- C17: step 3 of a pass through the loop of `main`.  If `Serial_IsSendReady` holds and
`USBtoUSART_Buffer` is not empty, exactly one byte, the oldest in the buffer, is removed and
passed to `Serial_SendByte`, and the count goes down by one; otherwise only the readiness
query is made: nothing is sent to the UART and the buffer is unchanged. -/
theorem C17_load_uart (p : Nat) (ready : Bool) (m : Machine) (hwf : m.USBtoUSART_Buffer.WF) :
    if ready = true ∧ m.USBtoUSART_Buffer.Count ≠ 0 then
      ∃ (b : Nat) (rest : List Nat),
        m.USBtoUSART_Buffer.contents = b :: rest ∧
        (main_loadUART p ready m).USBtoUSART_Buffer.contents = rest ∧
        (main_loadUART p ready m).USBtoUSART_Buffer.Count = m.USBtoUSART_Buffer.Count - 1 ∧
        (main_loadUART p ready m).calls =
          m.calls ++
            [.Serial_IsSendReady true, .LEDs_TurnOnLEDs_LEDMASK_RX,
              .RingBuffer_Remove .USBtoUSART_Buffer b, .Serial_SendByte b]
    else
      main_loadUART p ready m = m.call (.Serial_IsSendReady ready) := by
  rw [loadUART_eq]
  split_ifs with hgo
  · have hpos : 0 < m.USBtoUSART_Buffer.Count := Nat.pos_of_ne_zero hgo.2
    exact ⟨m.USBtoUSART_Buffer.Data m.USBtoUSART_Buffer.Out, m.USBtoUSART_Buffer.contents.tail,
      contents_head _ hwf hpos, (contents_tail _ hwf hpos).symm, remove_count _ hwf hpos, rfl⟩
  · rfl

/-- C17 at the sample state: the UART is ready and `0x61` is waiting, so `0x61` is sent; with
the UART not ready nothing is sent. -/
theorem C17_load_uart_witness :
    uartSent (main_loadUART 3 true sampleSystem.m).calls = [0x61] ∧
    (main_loadUART 3 true sampleSystem.m).USBtoUSART_Buffer.contents = [] ∧
    uartSent (main_loadUART 3 false sampleSystem.m).calls = [] := by
  have h1 := C17_load_uart 3 true sampleSystem.m
    (run_inv sampleFirmware _ _ (boot_inv _)).wf_out
  have h2 := C17_load_uart 3 false sampleSystem.m
    (run_inv sampleFirmware _ _ (boot_inv _)).wf_out
  rw [if_pos (by decide)] at h1
  rw [if_neg (by decide)] at h2
  obtain ⟨b, rest, hb, hrest, _, hcalls⟩ := h1
  have hbr : (0x61 :: ([] : List Nat)) = b :: rest := by rw [← hb]; decide
  obtain ⟨rfl, rfl⟩ := List.cons.inj hbr
  refine ⟨?_, hrest, ?_⟩
  · rw [hcalls]; decide
  · rw [h2]; decide

/-! ## The mode state over whole runs -/

/-- C18: the boot-time load sets `WebUSB_Enabled` to bit 0 of the byte stored at
`WEBUSB_ENABLE_BYTE_ADDRESS`, and in every state reached afterwards by any sequence of control
requests, `main` statements, receive interrupts and descriptor lookups, `WebUSB_Enabled`
equals bit 0 of that byte (also in the state in which the processor waits for the watchdog
after an Enable/Disable request). -/
theorem C18_live_equals_persisted_bit (f : Firmware) (eeprom : Nat → Nat)
    (events : List Event) :
    (main_setup eeprom).dev.WebUSB_Enabled = eeprom WEBUSB_ENABLE_BYTE_ADDRESS &&& 1 ∧
    (run f (boot eeprom) events).m.dev.WebUSB_Enabled =
      (run f (boot eeprom) events).m.dev.eeprom WEBUSB_ENABLE_BYTE_ADDRESS &&& 1 := by
  have h0 : (main_setup eeprom).dev.WebUSB_Enabled = eeprom WEBUSB_ENABLE_BYTE_ADDRESS &&& 1 := by
    rw [main_setup_enabled, Nat.and_one_is_mod]
  exact ⟨h0, run_consistent f events (boot eeprom) h0⟩

/-- C19, refuted as stated: on a device whose EEPROM has never been written, every cell reads
`0xFF` (the erased state of AVR EEPROM), and `main` then sets `WebUSB_Enabled` to
`0xFF & 1 = 1`: the device comes up in WebUSB mode, not in plain CDC mode. -/
theorem C19_counterexample_erased_eeprom_enables_webusb :
    (main_setup fun _ => 0xFF).dev.WebUSB_Enabled = 1 ∧
    (main_setup fun _ => 0xFF).dev.trace = [] := by
  decide

/-- C19 as amended: the boot-time load yields bit 0 of whatever byte is stored at
`WEBUSB_ENABLE_BYTE_ADDRESS`; `WebUSB_Enabled` is 0 after boot (plain CDC mode) exactly when
that bit is 0, and 1 exactly when it is 1. -/
theorem C19_boot_mode_is_stored_bit (eeprom : Nat → Nat) :
    (main_setup eeprom).dev.WebUSB_Enabled = eeprom WEBUSB_ENABLE_BYTE_ADDRESS % 2 ∧
    ((main_setup eeprom).dev.WebUSB_Enabled = 0 ↔ eeprom WEBUSB_ENABLE_BYTE_ADDRESS % 2 = 0) ∧
    ((main_setup eeprom).dev.WebUSB_Enabled = 1 ↔ eeprom WEBUSB_ENABLE_BYTE_ADDRESS % 2 = 1) := by
  rw [main_setup_enabled]
  exact ⟨rfl, Iff.rfl, Iff.rfl⟩

/-- C20: the mode bit has a single writer.  For every event other than an Enable/Disable WebUSB
request (any other control request, any statement of `main`, a receive interrupt, a descriptor
lookup), `WebUSB_Enabled` and the EEPROM are unchanged, the processor keeps running (no
reset), and the dispatcher's trace gains no `eeprom_write_byte` and no call of the reset
sequence; a whole pass through the loop of `main` leaves the mode state untouched as well. -/
theorem C20_mode_bit_single_writer (f : Firmware) (s : System) (e : Event) (i : PollInput)
    (hne : ∀ req, e = .ControlRequest req → ¬ isEnableRequest f.sel req) :
    (step f s e).m.dev.WebUSB_Enabled = s.m.dev.WebUSB_Enabled ∧
    (step f s e).m.dev.eeprom = s.m.dev.eeprom ∧
    (step f s e).running = s.running ∧
    (∃ t : List Effect,
      (step f s e).m.dev.trace = s.m.dev.trace ++ t ∧
      t.all (fun x => !x.persistsOrResets) = true) ∧
    (main_loop f.TX_RX_LED_PULSE_MS i s.m).dev = s.m.dev := by
  have hsame : ∀ s' : System, s'.m.dev = s.m.dev → s'.running = s.running →
      s'.m.dev.WebUSB_Enabled = s.m.dev.WebUSB_Enabled ∧ s'.m.dev.eeprom = s.m.dev.eeprom ∧
      s'.running = s.running ∧
      ∃ t : List Effect, s'.m.dev.trace = s.m.dev.trace ++ t ∧
        t.all (fun x => !x.persistsOrResets) = true := fun s' h1 h2 =>
    ⟨by rw [h1], by rw [h1], h2, [], by rw [h1, List.append_nil], rfl⟩
  have hstep : (step f s e).m.dev.WebUSB_Enabled = s.m.dev.WebUSB_Enabled ∧
      (step f s e).m.dev.eeprom = s.m.dev.eeprom ∧
      (step f s e).running = s.running ∧
      ∃ t : List Effect, (step f s e).m.dev.trace = s.m.dev.trace ++ t ∧
        t.all (fun x => !x.persistsOrResets) = true := by
    unfold step
    split_ifs
    · cases e with
      | main i' => exact hsame (mainStep f i' s) (mainStep_dev f i' s).1 (mainStep_dev f i' s).2
      | USART1_RX UDR1 st =>
        exact hsame { s with m := USART1_RX_vect UDR1 st s.m } (USART1_RX_vect_dev UDR1 st s.m)
          rfl
      | ControlRequest req =>
        obtain ⟨t, ht, hall⟩ := nonEnable_frame f.sel req s.m.dev (hne req rfl)
        dsimp only
        rw [ht]
        exact ⟨rfl, rfl, rfl, t, rfl, hall⟩
      | GetDescriptor wValue wIndex =>
        exact hsame { s with m := (CALLBACK_USB_GetDescriptor f.sizes wValue wIndex s.m).2 }
          (getDescriptor_dev _ _ _ s.m) rfl
    · exact hsame s rfl rfl
  exact ⟨hstep.1, hstep.2.1, hstep.2.2.1, hstep.2.2.2, main_loop_dev _ _ _⟩

/-- C20 at the sample state, for a Get-MS-OS-2.0-Descriptor-Set request: the mode state is as
before and the processor keeps running. -/
theorem C20_mode_bit_single_writer_witness :
    (step sampleFirmware sampleSystem
      (.ControlRequest
        { bmRequestType := 0xC0, bRequest := 0x45, wValue := 0, wIndex := 7,
          wLength := 255 })).m.dev.WebUSB_Enabled = sampleSystem.m.dev.WebUSB_Enabled ∧
    (step sampleFirmware sampleSystem
      (.ControlRequest
        { bmRequestType := 0xC0, bRequest := 0x45, wValue := 0, wIndex := 7,
          wLength := 255 })).running = sampleSystem.running := by
  have h := C20_mode_bit_single_writer sampleFirmware sampleSystem
    (.ControlRequest
      { bmRequestType := 0xC0, bRequest := 0x45, wValue := 0, wIndex := 7, wLength := 255 })
    { ReceivedByte := -1, INReady := false, SendResults := fun _ => 0, SendReady := false }
    (by
      intro req hreq
      cases hreq
      intro h
      exact absurd h.1 (by decide))
  exact ⟨h.1, h.2.2.1⟩

/-! ## Descriptor lookup -/

/-- C21: `CALLBACK_USB_GetDescriptor` selects by descriptor type, string id and mode.  For
types Device, BOS and Configuration and for the string ids Manufacturer and Product it gives
the address of the `_WebUSB` table when `WebUSB_Enabled` is non-zero and of the plain table
when it is zero, with that table's size (`sizeof(USB_Descriptor_Device_t)` for Device in both
modes, `sizeof` of the respective configuration type for Configuration, and the byte read
from the table's own `TotalLength` or `Header.Size` field for BOS and the strings); for the
Language string it gives `LanguageString` and its size whatever the mode; all this for every
`wIndex`. -/
theorem C21_descriptor_by_type_and_mode (z : DescriptorSizes) (wValue wIndex : Nat)
    (m : Machine) :
    ((wValue >>> 8) % 256 = DTYPE_Device →
      (CALLBACK_USB_GetDescriptor z wValue wIndex m).1 =
        { Address :=
            some (if m.dev.WebUSB_Enabled ≠ 0 then .DeviceDescriptor_WebUSB
              else .DeviceDescriptor)
          Size := z.sizeof_USB_Descriptor_Device_t }) ∧
    ((wValue >>> 8) % 256 = DTYPE_BOS →
      (CALLBACK_USB_GetDescriptor z wValue wIndex m).1 =
        if m.dev.WebUSB_Enabled ≠ 0 then
          { Address := some .BOSDescriptor_WebUSB,
            Size := pgm_read_byte z.BOSDescriptor_WebUSB_TotalLength }
        else
          { Address := some .BOSDescriptor, Size := pgm_read_byte z.BOSDescriptor_TotalLength }) ∧
    ((wValue >>> 8) % 256 = DTYPE_Configuration →
      (CALLBACK_USB_GetDescriptor z wValue wIndex m).1 =
        if m.dev.WebUSB_Enabled ≠ 0 then
          { Address := some .ConfigurationDescriptor_WebUSB,
            Size := z.sizeof_USB_Descriptor_Configuration_WebUSB_t }
        else
          { Address := some .ConfigurationDescriptor,
            Size := z.sizeof_USB_Descriptor_Configuration_t }) ∧
    ((wValue >>> 8) % 256 = DTYPE_String → (wValue &&& 0xFF) % 256 = STRING_ID_Manufacturer →
      (CALLBACK_USB_GetDescriptor z wValue wIndex m).1 =
        if m.dev.WebUSB_Enabled ≠ 0 then
          { Address := some .ManufacturerString_WebUSB,
            Size := pgm_read_byte z.ManufacturerString_WebUSB_Header_Size }
        else
          { Address := some .ManufacturerString,
            Size := pgm_read_byte z.ManufacturerString_Header_Size }) ∧
    ((wValue >>> 8) % 256 = DTYPE_String → (wValue &&& 0xFF) % 256 = STRING_ID_Product →
      (CALLBACK_USB_GetDescriptor z wValue wIndex m).1 =
        if m.dev.WebUSB_Enabled ≠ 0 then
          { Address := some .ProductString_WebUSB,
            Size := pgm_read_byte z.ProductString_WebUSB_Header_Size }
        else
          { Address := some .ProductString,
            Size := pgm_read_byte z.ProductString_Header_Size }) ∧
    ((wValue >>> 8) % 256 = DTYPE_String → (wValue &&& 0xFF) % 256 = STRING_ID_Language →
      (CALLBACK_USB_GetDescriptor z wValue wIndex m).1 =
        { Address := some .LanguageString,
          Size := pgm_read_byte z.LanguageString_Header_Size }) := by
  refine ⟨?_, ?_, ?_, ?_, ?_, ?_⟩
  · intro ht
    by_cases he : m.dev.WebUSB_Enabled = 0 <;>
      simp [CALLBACK_USB_GetDescriptor, ht, he]
  · intro ht
    by_cases he : m.dev.WebUSB_Enabled = 0 <;>
      simp [CALLBACK_USB_GetDescriptor, ht, he, DTYPE_BOS, DTYPE_Device]
  · intro ht
    by_cases he : m.dev.WebUSB_Enabled = 0 <;>
      simp [CALLBACK_USB_GetDescriptor, ht, he, DTYPE_BOS, DTYPE_Device, DTYPE_Configuration]
  · intro ht hn
    by_cases he : m.dev.WebUSB_Enabled = 0 <;>
      simp [CALLBACK_USB_GetDescriptor, ht, hn, he, DTYPE_BOS, DTYPE_Device,
        DTYPE_Configuration, DTYPE_String, STRING_ID_Language, STRING_ID_Manufacturer]
  · intro ht hn
    by_cases he : m.dev.WebUSB_Enabled = 0 <;>
      simp [CALLBACK_USB_GetDescriptor, ht, hn, he, DTYPE_BOS, DTYPE_Device,
        DTYPE_Configuration, DTYPE_String, STRING_ID_Language, STRING_ID_Manufacturer,
        STRING_ID_Product]
  · intro ht hn
    simp [CALLBACK_USB_GetDescriptor, ht, hn, DTYPE_BOS, DTYPE_Device,
      DTYPE_Configuration, DTYPE_String]

/-- C21 at concrete requests: the device descriptor (`wValue = 0x0100`) and the product
string (`wValue = 0x0302`) in both modes, and the language string (`wValue = 0x0300`). -/
theorem C21_descriptor_by_type_and_mode_witness :
    (CALLBACK_USB_GetDescriptor sampleFirmware.sizes 0x0100 0 (main_setup fun _ => 1)).1 =
      { Address := some .DeviceDescriptor_WebUSB, Size := 18 } ∧
    (CALLBACK_USB_GetDescriptor sampleFirmware.sizes 0x0100 0 (main_setup fun _ => 0)).1 =
      { Address := some .DeviceDescriptor, Size := 18 } ∧
    (CALLBACK_USB_GetDescriptor sampleFirmware.sizes 0x0302 0x0409 (main_setup fun _ => 1)).1 =
      { Address := some .ProductString_WebUSB, Size := 54 } ∧
    (CALLBACK_USB_GetDescriptor sampleFirmware.sizes 0x0302 0x0409 (main_setup fun _ => 0)).1 =
      { Address := some .ProductString, Size := 24 } ∧
    (CALLBACK_USB_GetDescriptor sampleFirmware.sizes 0x0300 0 (main_setup fun _ => 1)).1 =
      { Address := some .LanguageString, Size := 4 } := by
  have a := (C21_descriptor_by_type_and_mode sampleFirmware.sizes 0x0100 0
    (main_setup fun _ => 1)).1 (by decide)
  have b := (C21_descriptor_by_type_and_mode sampleFirmware.sizes 0x0100 0
    (main_setup fun _ => 0)).1 (by decide)
  have c := (C21_descriptor_by_type_and_mode sampleFirmware.sizes 0x0302 0x0409
    (main_setup fun _ => 1)).2.2.2.2.1 (by decide) (by decide)
  have d := (C21_descriptor_by_type_and_mode sampleFirmware.sizes 0x0302 0x0409
    (main_setup fun _ => 0)).2.2.2.2.1 (by decide) (by decide)
  have e := (C21_descriptor_by_type_and_mode sampleFirmware.sizes 0x0300 0
    (main_setup fun _ => 1)).2.2.2.2.2 (by decide) (by decide)
  rw [a, b, c, d, e]
  decide

/-- C24: when the descriptor type (high byte of `wValue`) is none of Device, BOS,
Configuration and String, and when it is String and the descriptor number (low byte) is none
of 0, 1 and 2, `CALLBACK_USB_GetDescriptor` returns `NO_DESCRIPTOR` with the address `NULL`,
whatever the mode and `wIndex`; it also makes no call and leaves the machine as it was. -/
theorem C24_unknown_descriptor_is_refused (z : DescriptorSizes) (wValue wIndex : Nat)
    (m : Machine)
    (h :
      ((wValue >>> 8) % 256 ≠ DTYPE_Device ∧ (wValue >>> 8) % 256 ≠ DTYPE_BOS ∧
        (wValue >>> 8) % 256 ≠ DTYPE_Configuration ∧ (wValue >>> 8) % 256 ≠ DTYPE_String) ∨
      ((wValue >>> 8) % 256 = DTYPE_String ∧ (wValue &&& 0xFF) % 256 ≠ STRING_ID_Language ∧
        (wValue &&& 0xFF) % 256 ≠ STRING_ID_Manufacturer ∧
        (wValue &&& 0xFF) % 256 ≠ STRING_ID_Product)) :
    CALLBACK_USB_GetDescriptor z wValue wIndex m =
      ({ Address := none, Size := NO_DESCRIPTOR }, m) := by
  rcases h with ⟨h1, h2, h3, h4⟩ | ⟨ht, h0, h1, h2⟩
  · simp [CALLBACK_USB_GetDescriptor, h1, h2, h3, h4]
  · simp [CALLBACK_USB_GetDescriptor, ht, h0, h1, h2, DTYPE_BOS, DTYPE_Device,
      DTYPE_Configuration, DTYPE_String]

/-- C24 at an HID report descriptor request (`wValue = 0x2200`) and at string id 3
(`wValue = 0x0303`), with WebUSB on. -/
theorem C24_unknown_descriptor_is_refused_witness :
    (CALLBACK_USB_GetDescriptor sampleFirmware.sizes 0x2200 0 (main_setup fun _ => 1)).1 =
      { Address := none, Size := 0 } ∧
    (CALLBACK_USB_GetDescriptor sampleFirmware.sizes 0x0303 0x0409 (main_setup fun _ => 1)).1 =
      { Address := none, Size := 0 } := by
  rw [C24_unknown_descriptor_is_refused sampleFirmware.sizes 0x2200 0 (main_setup fun _ => 1)
      (Or.inl (by decide)),
    C24_unknown_descriptor_is_refused sampleFirmware.sizes 0x0303 0x0409
      (main_setup fun _ => 1) (Or.inr (by decide))]
  exact ⟨rfl, rfl⟩

/-! ## The target reset line -/

/-- C22: the reset line follows DTR.  For every `HostToDevice` value and every prior value of
the 8-bit port, each bit of the port that is in `AVR_RESET_LINE_MASK` is low after
`EVENT_CDC_Device_ControLineStateChanged` if the `CDC_CONTROL_LINE_OUT_DTR` bit of
`HostToDevice` is set and high otherwise, and each other bit is as before. -/
theorem C22_reset_line_follows_dtr (mask hostToDevice port i : Nat) (hmask : mask < 256)
    (hport : port < 256) :
    (EVENT_CDC_Device_ControLineStateChanged mask hostToDevice port).testBit i =
      if mask.testBit i then decide (hostToDevice &&& CDC_CONTROL_LINE_OUT_DTR = 0)
      else port.testBit i := by
  have hclear : hostToDevice &&& CDC_CONTROL_LINE_OUT_DTR = 0 →
      EVENT_CDC_Device_ControLineStateChanged mask hostToDevice port =
        (port ||| mask) % 2 ^ 8 := by
    intro hd
    simp [EVENT_CDC_Device_ControLineStateChanged, hd]
  have hset : hostToDevice &&& CDC_CONTROL_LINE_OUT_DTR ≠ 0 →
      EVENT_CDC_Device_ControLineStateChanged mask hostToDevice port =
        (port &&& ((2 ^ 16 - 1) ^^^ mask)) % 2 ^ 8 := by
    intro hd
    simp [EVENT_CDC_Device_ControLineStateChanged, hd]
  have hm8 : ¬ i < 8 → mask.testBit i = false := fun hi =>
    Nat.testBit_lt_two_pow
      (Nat.lt_of_lt_of_le hmask (Nat.pow_le_pow_right (by norm_num) (by omega) : 2 ^ 8 ≤ 2 ^ i))
  have hp8 : ¬ i < 8 → port.testBit i = false := fun hi =>
    Nat.testBit_lt_two_pow
      (Nat.lt_of_lt_of_le hport (Nat.pow_le_pow_right (by norm_num) (by omega) : 2 ^ 8 ≤ 2 ^ i))
  by_cases hd : hostToDevice &&& CDC_CONTROL_LINE_OUT_DTR = 0
  · rw [hclear hd, Nat.testBit_mod_two_pow, Nat.testBit_or]
    by_cases hi : i < 8
    · cases hm : mask.testBit i <;> simp [hi, hd]
    · simp [hi, hd, hm8 hi, hp8 hi]
  · rw [hset hd, Nat.testBit_mod_two_pow, Nat.testBit_and, Nat.testBit_xor,
      Nat.testBit_two_pow_sub_one]
    by_cases hi : i < 8
    · have hi16 : i < 16 := by omega
      cases hm : mask.testBit i <;> simp [hi, hi16, hd]
    · simp [hi, hd, hm8 hi, hp8 hi]

/-- C22 with the mask `1 << 7` and the port at `0x55`: with DTR set the port becomes `0x55`
(bit 7 low), with DTR clear `0xD5` (bit 7 high), and bit 0 stays set both times. -/
theorem C22_reset_line_follows_dtr_witness :
    (EVENT_CDC_Device_ControLineStateChanged 0x80 3 0x55).testBit 7 = false ∧
    (EVENT_CDC_Device_ControLineStateChanged 0x80 2 0x55).testBit 7 = true ∧
    (EVENT_CDC_Device_ControLineStateChanged 0x80 3 0x55).testBit 0 = true ∧
    (EVENT_CDC_Device_ControLineStateChanged 0x80 2 0x55).testBit 0 = true := by
  rw [C22_reset_line_follows_dtr 0x80 3 0x55 7 (by norm_num) (by norm_num),
    C22_reset_line_follows_dtr 0x80 2 0x55 7 (by norm_num) (by norm_num),
    C22_reset_line_follows_dtr 0x80 3 0x55 0 (by norm_num) (by norm_num),
    C22_reset_line_follows_dtr 0x80 2 0x55 0 (by norm_num) (by norm_num)]
  decide

/-! ## The MS OS 2.0 descriptor sets -/

/-- C25, the declared lengths as the tables have them.  In `MS_OS_20_Descriptor` the set
header's `TotalLength` is the sum of the seven `Length` fields, and each function subset's
`SubsetLength` is its header length plus the lengths of its feature descriptors; in
`MS_OS_20_Descriptor_WebUSB` the header's `TotalLength` is `10 + 20`.  But the configuration
subset's `TotalLength` is `8 + 8 + 20 = 36`: its own header and the CDC function subset only.
With the WebUSB function subset that also follows it, the sum is 196. -/
theorem C25_configuration_subset_length_leaves_out_webusb :
    (MS_OS_20_Descriptor.Header.TotalLength =
      MS_OS_20_Descriptor.Header.Length + MS_OS_20_Descriptor.Configuration1.Length +
        MS_OS_20_Descriptor.CDC_Function.Length + MS_OS_20_Descriptor.CDC_CompatibleID.Length +
        MS_OS_20_Descriptor.WebUSB_Function.Length +
        MS_OS_20_Descriptor.WebUSB_CompatibleID.Length +
        MS_OS_20_Descriptor.WebUSB_RegistryData.Length) ∧
    (MS_OS_20_Descriptor.CDC_Function.SubsetLength =
      MS_OS_20_Descriptor.CDC_Function.Length + MS_OS_20_Descriptor.CDC_CompatibleID.Length) ∧
    (MS_OS_20_Descriptor.WebUSB_Function.SubsetLength =
      MS_OS_20_Descriptor.WebUSB_Function.Length +
        MS_OS_20_Descriptor.WebUSB_CompatibleID.Length +
        MS_OS_20_Descriptor.WebUSB_RegistryData.Length) ∧
    (MS_OS_20_Descriptor_WebUSB.Header.TotalLength = 10 + 20 ∧
      MS_OS_20_Descriptor_WebUSB.Header.TotalLength =
        MS_OS_20_Descriptor_WebUSB.Header.Length +
          MS_OS_20_Descriptor_WebUSB.CompatibleID.Length) ∧
    MS_OS_20_Descriptor.Configuration1.TotalLength = 36 ∧
    MS_OS_20_Descriptor.Configuration1.Length + MS_OS_20_Descriptor.CDC_Function.SubsetLength +
      MS_OS_20_Descriptor.WebUSB_Function.SubsetLength = 196 ∧
    MS_OS_20_Descriptor.Configuration1.TotalLength =
      MS_OS_20_Descriptor.Configuration1.Length +
        MS_OS_20_Descriptor.CDC_Function.SubsetLength ∧
    MS_OS_20_Descriptor.Configuration1.TotalLength ≠
      MS_OS_20_Descriptor.Configuration1.Length +
        MS_OS_20_Descriptor.CDC_Function.SubsetLength +
        MS_OS_20_Descriptor.WebUSB_Function.SubsetLength := by
  decide

/-! ## Accesses to the ring buffers -/

/-- The calls the descriptor callback records: none, or one LED toggle. -/
theorem getDescriptor_calls (z : DescriptorSizes) (wValue wIndex : Nat) (m : Machine) :
    ∃ cs : List Call,
      (CALLBACK_USB_GetDescriptor z wValue wIndex m).2.calls = m.calls ++ cs ∧
      (cs = [] ∨ cs = [.LEDs_ToggleLEDs_LEDS_LED1] ∨ cs = [.LEDs_ToggleLEDs_LEDS_ALL_LEDS]) := by
  unfold CALLBACK_USB_GetDescriptor
  simp only []
  split_ifs <;>
    first
      | exact ⟨[.LEDs_ToggleLEDs_LEDS_LED1], rfl, Or.inr (Or.inl rfl)⟩
      | exact ⟨[.LEDs_ToggleLEDs_LEDS_ALL_LEDS], rfl, Or.inr (Or.inr rfl)⟩
      | exact ⟨[], (List.append_nil _).symm, Or.inl rfl⟩

/-- One statement of `main`, under the invariant: the calls it records are appended to the
log, and each of them that reads a byte from a ring buffer finds one stored there. -/
theorem mainStep_reads_stored (f : Firmware) (i : MainInput) (s : System) (h : SysInv s) :
    ∃ new : List Call,
      (mainStep f i s).m.calls = s.m.calls ++ new ∧ ∀ c ∈ new, c.readsStoredByte s.m := by
  obtain ⟨m, pc, running⟩ := s
  have h5 := h.at_sendTest
  have h6 := h.at_dequeue
  simp only at h5 h6
  cases pc with
  | readFromHost =>
    simp only [mainStep, readFromHost_eq]
    split_ifs
    · exact ⟨[], (List.append_nil _).symm, by simp⟩
    · exact ⟨_, rfl, by simp [Call.readsStoredByte]⟩
    · exact ⟨_, rfl, by simp [Call.readsStoredByte]⟩
  | sendBegin =>
    simp only [mainStep, sendBegin_eq]
    split_ifs
    · exact ⟨[], (List.append_nil _).symm, by simp⟩
    · exact ⟨_, rfl, by simp [Call.readsStoredByte]⟩
    · exact ⟨_, rfl, by simp [Call.readsStoredByte]⟩
  | sendTest n =>
    cases n with
    | zero => exact ⟨[], (List.append_nil _).symm, by simp⟩
    | succ k =>
      have hk := h5 (k + 1) rfl
      simp only [mainStep, sendAttempt_eq]
      by_cases hr : i.SendResult = ENDPOINT_READYWAIT_NoError
      · simp only [hr, decide_True]
        exact ⟨_, rfl, by simp [Call.readsStoredByte]; omega⟩
      · simp only [hr, decide_False]
        exact ⟨_, rfl, by simp [Call.readsStoredByte]; omega⟩
  | dequeue n =>
    have hn := h6 n rfl
    simp only [mainStep, dequeueSent_eq]
    exact ⟨_, rfl, by simp [Call.readsStoredByte]; omega⟩
  | loadUART =>
    simp only [mainStep, loadUART_eq]
    split_ifs with hgo
    · have hpos : 1 ≤ m.USBtoUSART_Buffer.Count := Nat.pos_of_ne_zero hgo.2
      exact ⟨_, rfl, by simp [Call.readsStoredByte]; exact hpos⟩
    · exact ⟨_, rfl, by simp [Call.readsStoredByte]⟩
  | usbTasks =>
    simp only [mainStep, main_usbTasks, Machine.call, List.append_assoc]
    exact ⟨_, rfl, by simp [Call.readsStoredByte]⟩

/-- One event, under the invariant: the calls it records are appended to the log, and each of
them that reads a byte from a ring buffer finds one stored there. -/
theorem step_reads_stored (f : Firmware) (s : System) (e : Event) (h : SysInv s) :
    ∃ new : List Call,
      (step f s e).m.calls = s.m.calls ++ new ∧ ∀ c ∈ new, c.readsStoredByte s.m := by
  unfold step
  split_ifs
  · cases e with
    | main i => exact mainStep_reads_stored f i s h
    | USART1_RX UDR1 st =>
      simp only [USART1_RX_vect_eq]
      split_ifs
      · exact ⟨_, rfl, by simp [Call.readsStoredByte]⟩
      · exact ⟨[], (List.append_nil _).symm, by simp⟩
    | ControlRequest req =>
      dsimp only
      split <;> exact ⟨[], (List.append_nil _).symm, by simp⟩
    | GetDescriptor wValue wIndex =>
      obtain ⟨cs, hcs, hk⟩ := getDescriptor_calls f.sizes wValue wIndex s.m
      refine ⟨cs, hcs, ?_⟩
      rcases hk with rfl | rfl | rfl <;> simp [Call.readsStoredByte]
  · exact ⟨[], (List.append_nil _).symm, by simp⟩

/-- C23: no byte is ever taken from an empty buffer.  In every state reached from boot by any
interleaving of `main` statements, UART receive interrupts, control requests and descriptor
lookups: when `main` stands at the loop test with `BytesToSend` not yet zero (its next
statement peeks) at least `BytesToSend` bytes are stored in `USARTtoUSB_Buffer`; when it
stands before the `RingBuffer_Remove` of the send loop at least one byte is stored; and
whatever happens next, every `CDC_Device_SendByte` (given the peeked byte) and every
`RingBuffer_Remove` recorded by that event, in the send loop and in the UART step alike, acts
on a buffer whose count is at least 1 at that moment. -/
theorem C23_no_removal_from_empty (f : Firmware) (eeprom : Nat → Nat) (events : List Event)
    (e : Event) :
    (∀ n, (run f (boot eeprom) events).pc = .sendTest (n + 1) →
      1 ≤ (run f (boot eeprom) events).m.USARTtoUSB_Buffer.Count ∧
      n + 1 ≤ (run f (boot eeprom) events).m.USARTtoUSB_Buffer.Count) ∧
    (∀ n, (run f (boot eeprom) events).pc = .dequeue n →
      1 ≤ (run f (boot eeprom) events).m.USARTtoUSB_Buffer.Count) ∧
    ∃ new : List Call,
      (step f (run f (boot eeprom) events) e).m.calls =
        (run f (boot eeprom) events).m.calls ++ new ∧
      ∀ c ∈ new, c.readsStoredByte (run f (boot eeprom) events).m := by
  have hinv := run_inv f events (boot eeprom) (boot_inv eeprom)
  refine ⟨?_, ?_, step_reads_stored f _ e hinv⟩
  · intro n hn
    have := hinv.at_sendTest (n + 1) hn
    exact ⟨by omega, this⟩
  · intro n hn
    have := hinv.at_dequeue n hn
    omega

/-- C23 on a run that stops between a successful send and its dequeue, with the next event
the dequeue: one byte is stored at that moment, and the recorded `RingBuffer_Remove` reads
it. -/
theorem C23_no_removal_from_empty_witness :
    (run sampleFirmware (boot fun _ => 0)
      [.USART1_RX 5 4,
        .main { ReceivedByte := -1, INReady := true, SendResult := 0, SendReady := true },
        .main { ReceivedByte := -1, INReady := true, SendResult := 0, SendReady := true },
        .main { ReceivedByte := -1, INReady := true, SendResult := 0, SendReady := true }]).pc =
      .dequeue 0 ∧
    1 ≤ (run sampleFirmware (boot fun _ => 0)
      [.USART1_RX 5 4,
        .main { ReceivedByte := -1, INReady := true, SendResult := 0, SendReady := true },
        .main { ReceivedByte := -1, INReady := true, SendResult := 0, SendReady := true },
        .main { ReceivedByte := -1, INReady := true, SendResult := 0,
                SendReady := true }]).m.USARTtoUSB_Buffer.Count :=
  ⟨by decide,
    (C23_no_removal_from_empty sampleFirmware (fun _ => 0)
      [.USART1_RX 5 4,
        .main { ReceivedByte := -1, INReady := true, SendResult := 0, SendReady := true },
        .main { ReceivedByte := -1, INReady := true, SendResult := 0, SendReady := true },
        .main { ReceivedByte := -1, INReady := true, SendResult := 0, SendReady := true }]
      (.main { ReceivedByte := -1, INReady := true, SendResult := 0, SendReady := true })).2.1
      0 (by decide)⟩

end ArduinoUsbSerial
